import Mathlib

/-!
Verification of the CursorCanvas relay server (`server/src/index.ts`).

The development shallowly embeds the relay's data model and operations:
JavaScript strings are Lean `String`s manipulated through char-list based
helpers (so everything evaluates in the kernel), JSON values are an
inductive `JVal`, JavaScript numbers are `ℚ`, and the mutable module-level
relay state (`pluginSocket`, `pending`, `httpCommandQueue`, `waitingGetRes`,
`lastFigmaPrompt`) is a `RelayState` record threaded through explicit
transition functions, one per source-level event handler.  Asynchronous
completions (promise resolutions/rejections) are recorded as `Settlement`
outputs of the transitions.
-/

set_option autoImplicit false

namespace CursorCanvas

/-- JavaScript `String.prototype.toLowerCase`, on the char list so that it
evaluates in the kernel. -/
def jsToLower (s : String) : String := ⟨s.data.map Char.toLower⟩

/-- Whitespace as far as the strings of this code base are concerned. -/
def isJsSpace (c : Char) : Bool := c = ' ' || c = '\t' || c = '\n' || c = '\r'

/-- JavaScript `String.prototype.trim`. -/
def jsTrim (s : String) : String :=
  ⟨((s.data.dropWhile isJsSpace).reverse.dropWhile isJsSpace).reverse⟩

/-- JavaScript `String.prototype.includes`: substring test. -/
def jsIncludes (hay need : String) : Bool :=
  hay.data.tails.any fun t => need.data.isPrefixOf t

/-- JavaScript truthiness of a `string | undefined` value: `undefined` and
the empty string are falsy, every other string is truthy. -/
def truthyStr : Option String → Bool
  | some s => s ≠ ""
  | none => false

/-- `msg.text.trim() || null` — the trimmed text, or `null` when trimming
leaves the empty string. -/
def trimOrNull (t : String) : Option String :=
  if jsTrim t = "" then none else some (jsTrim t)

/-- JSON values exchanged with the plugin (`unknown` values in the source).
JavaScript numbers are modelled as rationals. -/
inductive JVal where
  | null : JVal
  | bool (b : Bool) : JVal
  | num (q : ℚ) : JVal
  | str (s : String) : JVal
  | obj (fields : List (String × JVal)) : JVal

/-- `JsonObject` = `Record<string, unknown>` (src/server/src/index.ts:14). -/
abbrev JsonObject := List (String × JVal)

/-- JavaScript property read `o["k"]` on a JSON object. -/
def lookupField (fields : JsonObject) (k : String) : Option JVal :=
  (fields.find? fun kv => kv.1 = k).map Prod.snd

/-- A WebSocket as seen by the relay: an identity plus its `readyState`
(1 = OPEN). -/
structure Socket where
  sid : Nat
  readyState : Nat
deriving DecidableEq

/-- Entry of `httpCommandQueue` (src/server/src/index.ts:283). -/
structure QueuedInvocation where
  id : String
  tool : String
  params : JsonObject

/-- The module-level mutable relay state of `server/src/index.ts`:
`pluginSocket` (line 281), the `pending` map (line 282, modelled by its
key set since the stored handlers are the settlement continuations),
`httpCommandQueue` (line 283), `waitingGetRes` (line 284, the parked
long-poll response identified by a number), and `lastFigmaPrompt`
(line 285). -/
structure RelayState where
  pluginSocket : Option Socket
  pending : List String
  httpCommandQueue : List QueuedInvocation
  waitingGetRes : Option Nat
  lastFigmaPrompt : Option String

/-- A promise settlement performed by a relay transition: the pending
invocation `id` is resolved with a value or rejected with an error
message. -/
inductive Settlement where
  | resolved (id : String) (value : Option JVal)
  | rejected (id : String) (reason : String)

/-- `pending.set(id, ...)`: insert a key into the pending map (key set). -/
def insertPending (l : List String) (id : String) : List String :=
  if l.contains id then l else id :: l

/-- `pluginBridgeReady` (src/server/src/index.ts:299-301): an open socket,
or a parked long-poll response. -/
def pluginBridgeReady (s : RelayState) : Bool :=
  (match s.pluginSocket with
   | some sock => sock.readyState == 1
   | none => false) || s.waitingGetRes.isSome

/-- Result of dispatching one invocation: the new relay state, the
messages written to the socket, and the long-poll responses completed
(parked response identity paired with the command it received). -/
structure SendOutcome where
  state : RelayState
  socketSent : List QueuedInvocation
  pollAnswers : List (Nat × QueuedInvocation)

/-- `sendToPlugin` (src/server/src/index.ts:336-358): register the pending
invocation, then deliver — over the socket if one is open, otherwise by
appending to the FIFO and, when a long-poll response is parked, shifting
the oldest queued command into it and clearing the parked slot.
The 20s timeout armed here is modelled separately by `timeoutFire`. -/
def sendToPlugin (s : RelayState) (id tool : String) (params : JsonObject) : SendOutcome :=
  let s1 : RelayState := { s with pending := insertPending s.pending id }
  let socketOpen : Bool := match s1.pluginSocket with
    | some sock => sock.readyState == 1
    | none => false
  if socketOpen then
    { state := s1, socketSent := [⟨id, tool, params⟩], pollAnswers := [] }
  else
    let q := s1.httpCommandQueue ++ [⟨id, tool, params⟩]
    match s1.waitingGetRes, q with
    | some res, c :: rest =>
        { state := { s1 with httpCommandQueue := rest, waitingGetRes := none },
          socketSent := [], pollAnswers := [(res, c)] }
    | _, _ =>
        { state := { s1 with httpCommandQueue := q }, socketSent := [], pollAnswers := [] }

/-- The `setTimeout` body armed by `sendToPlugin`
(src/server/src/index.ts:339-344): if the id is still pending, remove it
and reject with "Plugin timeout"; otherwise do nothing. -/
def timeoutFire (s : RelayState) (id : String) : RelayState × List Settlement :=
  if s.pending.contains id then
    ({ s with pending := s.pending.erase id }, [.rejected id "Plugin timeout"])
  else (s, [])

/-- Parsed body of a `POST /result` request. -/
structure ReplyMsg where
  id : Option String
  result : Option JVal
  error : Option String

/-- The `POST /result` handler's reply delivery
(src/server/src/index.ts:1164-1175): `if (msg.id && pending.has(msg.id))`
remove the pending invocation and settle it — reject when `msg.error` is
truthy, resolve with `msg.result` otherwise; an unknown or absent id is
silently dropped. -/
def resultPost (s : RelayState) (msg : ReplyMsg) : RelayState × List Settlement :=
  match msg.id with
  | some i =>
      if i ≠ "" && s.pending.contains i then
        ({ s with pending := s.pending.erase i },
         match msg.error with
         | some e => if e ≠ "" then [.rejected i e] else [.resolved i msg.result]
         | none => [.resolved i msg.result])
      else (s, [])
  | none => (s, [])

/-- A parsed WebSocket message from the plugin. -/
structure WsIncoming where
  type : Option String
  text : Option String
  id : Option String
  result : Option JVal
  error : Option String

/-- The socket `message` handler (src/server/src/index.ts:1285-1308):
`figma_prompt` messages store the trimmed text (or clear it when empty);
otherwise the reply-delivery logic identical to `POST /result` runs. -/
def wsMessage (s : RelayState) (msg : WsIncoming) : RelayState × List Settlement :=
  if msg.type == some "figma_prompt" && msg.text.isSome then
    ({ s with lastFigmaPrompt := match msg.text with
        | some t => trimOrNull t
        | none => none }, [])
  else
    match msg.id with
    | some i =>
        if i ≠ "" && s.pending.contains i then
          ({ s with pending := s.pending.erase i },
           match msg.error with
           | some e => if e ≠ "" then [.rejected i e] else [.resolved i msg.result]
           | none => [.resolved i msg.result])
        else (s, [])
    | none => (s, [])

/-- The `GET /poll` handler (src/server/src/index.ts:1151-1162): a queued
command answers the request immediately; with an empty queue the response
is stored as the new `waitingGetRes` (overwriting any previous one). -/
def pollArrive (s : RelayState) (res : Nat) : RelayState × List (Nat × QueuedInvocation) :=
  match s.httpCommandQueue with
  | c :: rest => ({ s with httpCommandQueue := rest }, [(res, c)])
  | [] => ({ s with waitingGetRes := some res }, [])

/-- The parked response's `close` listener (src/server/src/index.ts:1157-1159):
clear the slot only if it still holds this response. -/
def pollClose (s : RelayState) (res : Nat) : RelayState :=
  if s.waitingGetRes == some res then { s with waitingGetRes := none } else s

/-- The `POST /prompt` handler (src/server/src/index.ts:1177-1183). -/
def promptPost (s : RelayState) (text : Option String) : RelayState :=
  { s with lastFigmaPrompt := match text with
      | some t => trimOrNull t
      | none => none }

/-- The `wss` `connection` handler's first statement
(src/server/src/index.ts:1279): the new socket becomes the current one. -/
def socketConnect (s : RelayState) (ws : Socket) : RelayState :=
  { s with pluginSocket := some ws }

/-- The socket `close` handler (src/server/src/index.ts:1281-1283).  Its
entire body is `if (pluginSocket === ws) pluginSocket = null;` — it settles
no pending invocation, hence the empty settlement list. -/
def socketClose (s : RelayState) (ws : Socket) : RelayState × List Settlement :=
  (if s.pluginSocket == some ws then { s with pluginSocket := none } else s, [])

/-- Response of the `get_figma_prompt` tool. -/
inductive PromptResult where
  | withPrompt (text : String)
  | noPrompt

/-- The `get_figma_prompt` branch of the MCP `CallTool` handler
(src/server/src/index.ts:1350-1363): read `lastFigmaPrompt`, clear it,
and answer with the stored text or the no-prompt message. -/
def getFigmaPrompt (s : RelayState) : RelayState × PromptResult :=
  let text := s.lastFigmaPrompt
  ({ s with lastFigmaPrompt := none },
   match text with
   | some t => .withPrompt t
   | none => .noPrompt)

/-- `ExecutedToolCall` (src/server/src/index.ts:41-46): one audit-trail
record of the agent loop. -/
structure ExecutedToolCall where
  tool : String
  params : JsonObject
  result : Option JVal := none
  error : Option String := none

/-- A content part of an OpenAI `message` output item. -/
structure OutputPart where
  type : Option String
  text : Option String

/-- An (untyped) entry of an OpenAI response's `output` array. -/
structure OutputItem where
  type : Option String := none
  name : Option String := none
  call_id : Option String := none
  arguments : Option String := none
  content : List OutputPart := []

/-- `OpenAIResponse` (src/server/src/index.ts:48-52). -/
structure OpenAIResponse where
  id : String
  output_text : Option String := none
  output : Option (List OutputItem) := none

/-- `OpenAIFunctionCall` (src/server/src/index.ts:54-58). -/
structure OpenAIFunctionCall where
  name : String
  call_id : String
  arguments : String

/-- `extractOpenAIFunctionCalls` (src/server/src/index.ts:957-969): keep the
`function_call` items that carry a string `name` and `call_id`, defaulting
`arguments` to the empty-object text. -/
def extractOpenAIFunctionCalls (r : OpenAIResponse) : List OpenAIFunctionCall :=
  (r.output.getD []).filterMap fun item =>
    if item.type == some "function_call" then
      match item.name, item.call_id with
      | some n, some c => some ⟨n, c, item.arguments.getD "\x7b\x7d"⟩
      | _, _ => none
    else none

/-- The chunk-collection fallback of `extractOpenAIText`
(src/server/src/index.ts:975-989). -/
def collectMessageText (items : List OutputItem) : String :=
  jsTrim (String.intercalate "\n"
    ((items.map fun item =>
        if item.type == some "message" then
          item.content.filterMap fun part =>
            if part.type == some "output_text" || part.type == some "text" then part.text
            else none
        else []).flatten))

/-- `extractOpenAIText` (src/server/src/index.ts:971-990): a non-blank
`output_text` wins, otherwise the message chunks joined by newlines. -/
def extractOpenAIText (r : OpenAIResponse) : String :=
  match r.output_text with
  | some t => if jsTrim t ≠ "" then jsTrim t else collectMessageText (r.output.getD [])
  | none => collectMessageText (r.output.getD [])

/-- Payload of a `function_call_output` item sent back to the model:
`JSON.stringify({ok:true,result})` or `JSON.stringify({ok:false,error})`. -/
inductive CallOutputPayload where
  | ok (result : JVal)
  | failed (error : String)

/-- A `function_call_output` entry of the follow-up request
(src/server/src/index.ts:1050-1068). -/
structure FunctionCallOutput where
  call_id : String
  output : CallOutputPayload

/-- The `for (const call of calls)` body of `runOpenAIAgent`
(src/server/src/index.ts:1051-1070): parse the arguments with an abstract
JSON parser `argParse` (empty object on failure, as `parseJsonSafe`), run
the tool — `exec k` is the settlement of the `k`-th relayed invocation of
this chat turn — append the outcome to the audit trail, and build the
`function_call_output` for the follow-up request. -/
def execCalls (exec : Nat → Except String JVal) (argParse : String → Option JsonObject) :
    List OpenAIFunctionCall → Nat → List ExecutedToolCall →
    List FunctionCallOutput × List ExecutedToolCall × Nat
  | [], k, acc => ([], acc, k)
  | c :: rest, k, acc =>
      let args := (argParse c.arguments).getD []
      match exec k with
      | .ok r =>
          let s := execCalls exec argParse rest (k + 1)
            (acc ++ [{ tool := c.name, params := args, result := some r }])
          (⟨c.call_id, .ok r⟩ :: s.1, s.2)
      | .error e =>
          let s := execCalls exec argParse rest (k + 1)
            (acc ++ [{ tool := c.name, params := args, error := some e }])
          (⟨c.call_id, .failed e⟩ :: s.1, s.2)

/-- Value of `runOpenAIAgent`'s loop: the final response, the audit trail,
the number of call-executing rounds, and the number of relayed invocations. -/
structure AgentLoopResult where
  response : OpenAIResponse
  toolCalls : List ExecutedToolCall
  rounds : Nat
  execUsed : Nat

/-- The `while (guard < 8)` loop of `runOpenAIAgent`
(src/server/src/index.ts:1043-1079).  The remote endpoint is abstracted by
`next`, mapping the previous response id and the `function_call_output`
items to the follow-up response (`createOpenAIResponse` on the follow-up
request body). -/
def agentLoop (next : String → List FunctionCallOutput → OpenAIResponse)
    (exec : Nat → Except String JVal) (argParse : String → Option JsonObject) :
    Nat → OpenAIResponse → Nat → List ExecutedToolCall → AgentLoopResult
  | guard, resp, k, acc =>
    if _h : guard < 8 then
      match extractOpenAIFunctionCalls resp with
      | [] => { response := resp, toolCalls := acc, rounds := guard, execUsed := k }
      | c :: cs =>
          let s := execCalls exec argParse (c :: cs) k acc
          agentLoop next exec argParse (guard + 1) (next resp.id s.1) s.2.2 s.2.1
    else { response := resp, toolCalls := acc, rounds := guard, execUsed := k }
  termination_by guard => 8 - guard

/-- `runOpenAIAgent` (src/server/src/index.ts:1010-1083), with the first
remote response `first` and the follow-up oracle `next`: run the bounded
loop, then return the extracted text (`"Done."` when blank) together with
the accumulated audit trail. -/
def runOpenAIAgent (first : OpenAIResponse)
    (next : String → List FunctionCallOutput → OpenAIResponse)
    (exec : Nat → Except String JVal) (argParse : String → Option JsonObject) :
    String × List ExecutedToolCall :=
  let r := agentLoop next exec argParse 0 first 0 []
  let a := extractOpenAIText r.response
  ((if a = "" then "Done." else a), r.toolCalls)

/-- `ChatMessage` (src/server/src/index.ts:26-29), with the role kept as the
raw string of the JSON payload. -/
structure ChatMessage where
  role : String
  content : String

/-- `ChatRequest` (src/server/src/index.ts:31-39). -/
structure ChatRequest where
  provider : Option String := none
  model : Option String := none
  apiKey : Option String := none
  message : Option String := none
  conversation : Option (List ChatMessage) := none
  researchContext : Option String := none
  designProfile : Option String := none

/-- What a planner run produces: the assistant text, the audit trail, and
the tool invocations it dispatched through the relay while running. -/
structure AgentOutcome where
  assistant : String
  toolCalls : List ExecutedToolCall
  dispatched : List QueuedInvocation

/-- `payload.apiKey?.trim() || process.env.OPENAI_API_KEY`
(src/server/src/index.ts:1104): the trimmed request key when non-empty,
the environment key otherwise. -/
def resolveOpenAIKey (payloadKey envKey : Option String) : Option String :=
  match payloadKey with
  | some k => if jsTrim k ≠ "" then some (jsTrim k) else envKey
  | none => envKey

/-- The success payload of `handleChatRequest`
(src/server/src/index.ts:1085-1090). -/
structure ChatSuccess where
  assistant : String
  provider : String
  model : Option String
  toolCalls : List ExecutedToolCall

/-- `handleChatRequest` (src/server/src/index.ts:1085-1126), with the two
planners abstracted as functions recording their dispatches.  All guards
(`message` present, `pluginBridgeReady`, API key for the openai provider,
known provider) run before either planner is invoked; a `throw` in the
source is an `Except.error` here, and the second component collects every
invocation dispatched to the relay during the request. -/
def handleChatRequest
    (localAgent : String → String → String → AgentOutcome)
    (openaiAgent : String → List ChatMessage → String → String → String → String → AgentOutcome)
    (envOpenAIKey : Option String)
    (relay : RelayState)
    (payload : ChatRequest) : Except String ChatSuccess × List QueuedInvocation :=
  let provider := jsToLower (payload.provider.getD "local")
  let message := jsTrim (payload.message.getD "")
  let researchContext := jsTrim (payload.researchContext.getD "")
  let designProfile := jsTrim (payload.designProfile.getD "")
  if message = "" then (.error "message is required", [])
  else if !pluginBridgeReady relay then
    (.error "Figma plugin is not connected. Click Connect in CursorCanvas first.", [])
  else if provider = "local" then
    let r := localAgent message researchContext designProfile
    (.ok { assistant := r.assistant, provider := provider, model := none,
           toolCalls := r.toolCalls }, r.dispatched)
  else if provider = "openai" then
    match resolveOpenAIKey payload.apiKey envOpenAIKey with
    | none => (.error "OpenAI API key missing. Add it in plugin UI or OPENAI_API_KEY env.", [])
    | some key =>
        let model := match payload.model with
          | some m => if jsTrim m ≠ "" then jsTrim m else "gpt-5-mini"
          | none => "gpt-5-mini"
        let conversation := payload.conversation.getD []
        let r := openaiAgent message conversation model key researchContext designProfile
        (.ok { assistant := r.assistant, provider := provider, model := some model,
               toolCalls := r.toolCalls }, r.dispatched)
  else if provider = "cursor" || provider = "lovable" then
    (.error (provider ++ " provider is not available yet in CursorCanvas plugin chat."), [])
  else (.error ("Unknown provider: " ++ provider), [])

/-- Body written by the `POST /chat` route. -/
inductive ChatBody where
  | success (r : ChatSuccess)
  | failure (error : String)

/-- The `POST /chat` route (src/server/src/index.ts:1185-1196): a successful
`handleChatRequest` is written with status 200, a thrown error with
status 400 as `{error}`. -/
def chatRoute
    (localAgent : String → String → String → AgentOutcome)
    (openaiAgent : String → List ChatMessage → String → String → String → String → AgentOutcome)
    (envOpenAIKey : Option String)
    (relay : RelayState)
    (payload : ChatRequest) : Nat × ChatBody × List QueuedInvocation :=
  match handleChatRequest localAgent openaiAgent envOpenAIKey relay payload with
  | (.ok r, d) => (200, .success r, d)
  | (.error m, d) => (400, .failure m, d)

/-- `FIGSOR_PORT_MAX` (src/server/src/index.ts:11). -/
def FIGSOR_PORT_MAX : Nat := 3080

/-- The module-level negotiator state (src/server/src/index.ts:287-289,
1201): the monotonic bind-attempt counter, the advertised port pair, and
the WebSocket listener currently held (if any). -/
structure NegState where
  portBindAttemptCounter : Nat
  activeWsPort : Nat
  activeHttpPort : Nat
  wssBound : Option Nat

/-- What a negotiator callback decides to do next. -/
inductive NegAction where
  | ignore
  | retryPair (wsPort httpPort : Nat)
  | wssNowBound
  | rethrow
deriving DecidableEq

/-- The `httpServer.listen` success callback's guarded head
(src/server/src/index.ts:1238-1247): a stale attempt returns immediately;
the current attempt advertises the pair (before the ws port is probed or
bound) and drops any previously held WebSocket listener.  The returned
flag says whether the probe of the data port proceeds. -/
def onHttpListenSuccess (bindAttemptId wsPort httpPort : Nat) (s : NegState) :
    NegState × Bool :=
  if bindAttemptId ≠ s.portBindAttemptCounter then (s, false)
  else ({ s with activeWsPort := wsPort, activeHttpPort := httpPort, wssBound := none }, true)

/-- The `httpServer` `error` listener (src/server/src/index.ts:1231-1235):
stale attempts are ignored; `EADDRINUSE` schedules a retry at the next
pair, any other error is rethrown. -/
def onHttpError (bindAttemptId wsPort httpPort : Nat) (addrInUse : Bool) (s : NegState) :
    NegState × NegAction :=
  if bindAttemptId ≠ s.portBindAttemptCounter then (s, .ignore)
  else if addrInUse then (s, .retryPair (wsPort + 2) (httpPort + 2))
  else (s, .rethrow)

/-- The `probePort(wsPort).then` continuation's decision
(src/server/src/index.ts:1249-1266): stale attempts are ignored; an
unavailable data port schedules a retry; otherwise the `WebSocketServer`
is created on the data port. -/
def onProbeResult (bindAttemptId wsPort httpPort : Nat) (available : Bool) (s : NegState) :
    NegState × NegAction :=
  if bindAttemptId ≠ s.portBindAttemptCounter then (s, .ignore)
  else if !available then (s, .retryPair (wsPort + 2) (httpPort + 2))
  else ({ s with wssBound := some wsPort }, .wssNowBound)

/-- The `wss` `error` listener (src/server/src/index.ts:1268-1276): same
shape as the HTTP error listener. -/
def onWssError (bindAttemptId wsPort httpPort : Nat) (addrInUse : Bool) (s : NegState) :
    NegState × NegAction :=
  if bindAttemptId ≠ s.portBindAttemptCounter then (s, .ignore)
  else if addrInUse then (s, .retryPair (wsPort + 2) (httpPort + 2))
  else (s, .rethrow)

/-- The `wss` `listening` listener (src/server/src/index.ts:1311-1317) only
logs, and only for the current attempt. -/
def onWssListeningLogs (bindAttemptId : Nat) (s : NegState) : Bool :=
  bindAttemptId == s.portBindAttemptCounter

/-- What `GET /health` (src/server/src/index.ts:1141-1149) shows at one
instant of the negotiation, paired with whether the advertised data port
is actually held by a bound WebSocket listener at that instant. -/
structure HealthView where
  wsPort : Nat
  httpPort : Nat
  wssHeld : Bool
deriving DecidableEq

/-- The deterministic sequential execution of the
`tryPortPair`/`schedulePortRetry` chain (src/server/src/index.ts:1201-1328)
under a static environment `occupied` telling which ports other processes
hold.  Attempts run strictly one after another (each retry is scheduled
only from the previous attempt's own callbacks), so every guarded callback
of the chain sees its own attempt id as current — the stale-attempt guards
themselves are the `on*` handlers above.  The result is the settled
`(wsPort, httpPort)` pair (`none` when the range is exhausted and the
process exits), together with the chronological list of states `/health`
can serve while the control listener is bound: one entry per successful
HTTP bind — advertised by `onHttpListenSuccess` while the data-port probe
is still in flight — plus one after the data port is actually bound. -/
def tryPortPair (occupied : Nat → Bool) (wsPort httpPort : Nat) :
    Option (Nat × Nat) × List HealthView :=
  if _h : httpPort > FIGSOR_PORT_MAX then (none, [])
  else if occupied httpPort then tryPortPair occupied (wsPort + 2) (httpPort + 2)
  else
    let advertised : HealthView := ⟨wsPort, httpPort, false⟩
    if occupied wsPort then
      let r := tryPortPair occupied (wsPort + 2) (httpPort + 2)
      (r.1, advertised :: r.2)
    else (some (wsPort, httpPort), [advertised, ⟨wsPort, httpPort, true⟩])
  termination_by FIGSOR_PORT_MAX + 1 - httpPort
  decreasing_by
    all_goals simp only [FIGSOR_PORT_MAX] at *; omega

/-- JavaScript `Math.round` on our rational model of numbers. -/
def jsRound (q : ℚ) : ℚ := ((⌊q + 1/2⌋ : ℤ) : ℚ)

/-- JavaScript `Math.floor`. -/
def jsFloor (q : ℚ) : ℚ := ((⌊q⌋ : ℤ) : ℚ)

/-- JavaScript `s.slice(0, 140)`. -/
def jsSlice140 (s : String) : String := ⟨s.data.take 140⟩

/-- `extractNodeId` (src/server/src/index.ts:365-369): the `id` field of an
object result, when it is a string. -/
def extractNodeId : Option JVal → Option String
  | some (.obj fields) =>
      match lookupField fields "id" with
      | some (.str s) => some s
      | _ => none
  | _ => none

/-- State threaded through `runLocalAgent`: the executor oracle — `exec k`
is the settlement of the `k`-th invocation relayed by `runTool` during
this run — the number of invocations issued so far, and the audit trail. -/
structure LocalSt where
  exec : Nat → Except String JVal
  idx : Nat
  toolCalls : List ExecutedToolCall

/-- The `run` helper of `runLocalAgent` (src/server/src/index.ts:378-388):
await the relayed tool call, append its outcome — success or failure — to
the audit trail, and hand back the result (`null`, i.e. `none`, on
failure). -/
def runStep (tool : String) (params : JsonObject) (s : LocalSt) : Option JVal × LocalSt :=
  match s.exec s.idx with
  | .ok r => (some r,
      { s with idx := s.idx + 1,
               toolCalls := s.toolCalls ++ [{ tool := tool, params := params, result := some r }] })
  | .error e => (none,
      { s with idx := s.idx + 1,
               toolCalls := s.toolCalls ++ [{ tool := tool, params := params, error := some e }] })

/-- The button-showcase recipe of `runLocalAgent`
(src/server/src/index.ts:422-533). -/
def buttonBranch (contentWidth : ℚ) (rootId : String) (s : LocalSt) : LocalSt :=
  let sectionRes := runStep "create_frame" [
      ("parentId", .str rootId), ("name", .str "Button Showcase"),
      ("width", .num contentWidth), ("height", .num 260),
      ("layoutMode", .str "VERTICAL"),
      ("primaryAxisSizingMode", .str "AUTO"), ("counterAxisSizingMode", .str "FIXED"),
      ("itemSpacing", .num 14),
      ("paddingTop", .num 18), ("paddingRight", .num 18),
      ("paddingBottom", .num 18), ("paddingLeft", .num 18),
      ("fillR", .num 0.952), ("fillG", .num 0.957), ("fillB", .num 0.969),
      ("cornerRadius", .num 14), ("select", .bool false)] s
  let sectionId := (extractNodeId sectionRes.1).getD rootId
  let s2 := (runStep "create_text" [
      ("parentId", .str sectionId), ("text", .str "Button Variants"),
      ("fontFamily", .str "Inter"), ("fontStyle", .str "Bold"), ("fontSize", .num 28),
      ("fillR", .num 0.11), ("fillG", .num 0.12), ("fillB", .num 0.16),
      ("select", .bool false)] sectionRes.2).2
  let row := runStep "create_frame" [
      ("parentId", .str sectionId), ("name", .str "Button Row"),
      ("width", .num (max 260 (contentWidth - 36))), ("height", .num 72),
      ("layoutMode", .str "HORIZONTAL"),
      ("primaryAxisSizingMode", .str "AUTO"), ("counterAxisSizingMode", .str "AUTO"),
      ("itemSpacing", .num 10),
      ("fillR", .num 1), ("fillG", .num 1), ("fillB", .num 1),
      ("fillOpacity", .num 0), ("select", .bool false)] s2
  let rowId := (extractNodeId row.1).getD sectionId
  let primary := runStep "create_component" [
      ("parentId", .str rowId), ("name", .str "Button / Primary"),
      ("width", .num 170), ("height", .num 48), ("cornerRadius", .num 9),
      ("fillR", .num 0.26), ("fillG", .num 0.31), ("fillB", .num 0.9),
      ("layoutMode", .str "HORIZONTAL"),
      ("primaryAxisSizingMode", .str "AUTO"), ("counterAxisSizingMode", .str "AUTO"),
      ("primaryAxisAlignItems", .str "CENTER"), ("counterAxisAlignItems", .str "CENTER"),
      ("paddingTop", .num 12), ("paddingRight", .num 18),
      ("paddingBottom", .num 12), ("paddingLeft", .num 18),
      ("select", .bool false)] row.2
  let primaryId := (extractNodeId primary.1).getD rowId
  let s5 := (runStep "create_text" [
      ("parentId", .str primaryId), ("text", .str "Primary Action"),
      ("fontFamily", .str "Inter"), ("fontStyle", .str "Medium"), ("fontSize", .num 14),
      ("fillR", .num 1), ("fillG", .num 1), ("fillB", .num 1),
      ("select", .bool false)] primary.2).2
  let secondary := runStep "create_component" [
      ("parentId", .str rowId), ("name", .str "Button / Secondary"),
      ("width", .num 170), ("height", .num 48), ("cornerRadius", .num 9),
      ("fillR", .num 0.89), ("fillG", .num 0.91), ("fillB", .num 0.95),
      ("layoutMode", .str "HORIZONTAL"),
      ("primaryAxisSizingMode", .str "AUTO"), ("counterAxisSizingMode", .str "AUTO"),
      ("primaryAxisAlignItems", .str "CENTER"), ("counterAxisAlignItems", .str "CENTER"),
      ("paddingTop", .num 12), ("paddingRight", .num 18),
      ("paddingBottom", .num 12), ("paddingLeft", .num 18),
      ("select", .bool false)] s5
  let secondaryId := (extractNodeId secondary.1).getD rowId
  (runStep "create_text" [
      ("parentId", .str secondaryId), ("text", .str "Secondary Action"),
      ("fontFamily", .str "Inter"), ("fontStyle", .str "Medium"), ("fontSize", .num 14),
      ("fillR", .num 0.15), ("fillG", .num 0.17), ("fillB", .num 0.24),
      ("select", .bool true)] secondary.2).2

/-- The metric value picked inside the stats loop
(src/server/src/index.ts:682). -/
def dashboardMetricValue (metric : String) : String :=
  if metric = "Active boards" then "42"
  else if metric = "Design tokens" then "128" else "9"

/-- One iteration of the stats-card loop (src/server/src/index.ts:648-691). -/
def dashboardMetricStep (isMobile : Bool) (contentWidth : ℚ) (statsId : String)
    (s : LocalSt) (metric : String) : LocalSt :=
  let card := runStep "create_component" [
      ("parentId", .str statsId), ("name", .str ("Metric / " ++ metric)),
      ("width", .num (if isMobile then max 260 (contentWidth - 62) else 170)),
      ("height", .num 98), ("cornerRadius", .num 11),
      ("fillR", .num 0.935), ("fillG", .num 0.944), ("fillB", .num 0.97),
      ("layoutMode", .str "VERTICAL"),
      ("primaryAxisSizingMode", .str "AUTO"), ("counterAxisSizingMode", .str "FIXED"),
      ("itemSpacing", .num 6),
      ("paddingTop", .num 14), ("paddingRight", .num 14),
      ("paddingBottom", .num 14), ("paddingLeft", .num 14),
      ("select", .bool false)] s
  let cardId := (extractNodeId card.1).getD statsId
  let s1 := (runStep "create_text" [
      ("parentId", .str cardId), ("text", .str metric),
      ("fontFamily", .str "Inter"), ("fontStyle", .str "Medium"), ("fontSize", .num 12),
      ("fillR", .num 0.35), ("fillG", .num 0.38), ("fillB", .num 0.49),
      ("select", .bool false)] card.2).2
  (runStep "create_text" [
      ("parentId", .str cardId), ("text", .str (dashboardMetricValue metric)),
      ("fontFamily", .str "Inter"), ("fontStyle", .str "Bold"), ("fontSize", .num 28),
      ("fillR", .num 0.12), ("fillG", .num 0.14), ("fillB", .num 0.2),
      ("select", .bool false)] s1).2

/-- The dashboard-shell recipe of `runLocalAgent`
(src/server/src/index.ts:534-702). -/
def dashboardBranch (isMobile : Bool) (contentWidth : ℚ) (rootId : String)
    (s : LocalSt) : LocalSt :=
  let shell := runStep "create_frame" [
      ("parentId", .str rootId), ("name", .str "Dashboard Shell"),
      ("width", .num contentWidth), ("height", .num (if isMobile then 720 else 760)),
      ("layoutMode", .str (if isMobile then "VERTICAL" else "HORIZONTAL")),
      ("primaryAxisSizingMode", .str "FIXED"), ("counterAxisSizingMode", .str "FIXED"),
      ("itemSpacing", .num 14),
      ("paddingTop", .num 14), ("paddingRight", .num 14),
      ("paddingBottom", .num 14), ("paddingLeft", .num 14),
      ("fillR", .num 0.968), ("fillG", .num 0.972), ("fillB", .num 0.982),
      ("cornerRadius", .num 14), ("select", .bool false)] s
  let shellId := (extractNodeId shell.1).getD rootId
  let sidebarWidth : ℚ :=
    if isMobile then max 280 (contentWidth - 28)
    else max 220 (jsRound (contentWidth * 0.24))
  let sidebar := runStep "create_frame" [
      ("parentId", .str shellId), ("name", .str "Sidebar"),
      ("width", .num sidebarWidth), ("height", .num (if isMobile then 220 else 720)),
      ("layoutMode", .str "VERTICAL"),
      ("primaryAxisSizingMode", .str "FIXED"), ("counterAxisSizingMode", .str "FIXED"),
      ("itemSpacing", .num 8),
      ("paddingTop", .num 16), ("paddingRight", .num 16),
      ("paddingBottom", .num 16), ("paddingLeft", .num 16),
      ("fillR", .num 0.918), ("fillG", .num 0.929), ("fillB", .num 0.956),
      ("cornerRadius", .num 12), ("select", .bool false)] shell.2
  let sidebarId := (extractNodeId sidebar.1).getD shellId
  let s3 := ["Workspace", "Overview", "Projects", "Library", "Settings"].foldl
    (fun st label => (runStep "create_text" [
        ("parentId", .str sidebarId), ("text", .str label),
        ("fontFamily", .str "Inter"),
        ("fontStyle", .str (if label = "Workspace" then "Bold" else "Medium")),
        ("fontSize", .num (if label = "Workspace" then 16 else 13)),
        ("fillR", .num (if label = "Workspace" then 0.13 else 0.31)),
        ("fillG", .num (if label = "Workspace" then 0.15 else 0.34)),
        ("fillB", .num (if label = "Workspace" then 0.2 else 0.43)),
        ("select", .bool false)] st).2) sidebar.2
  let content := runStep "create_frame" [
      ("parentId", .str shellId), ("name", .str "Content"),
      ("width", .num (if isMobile then max 280 (contentWidth - 28)
                      else max 340 (contentWidth - sidebarWidth - 14))),
      ("height", .num (if isMobile then 460 else 720)),
      ("layoutMode", .str "VERTICAL"),
      ("primaryAxisSizingMode", .str "FIXED"), ("counterAxisSizingMode", .str "FIXED"),
      ("itemSpacing", .num 12),
      ("paddingTop", .num 16), ("paddingRight", .num 16),
      ("paddingBottom", .num 16), ("paddingLeft", .num 16),
      ("fillR", .num 1), ("fillG", .num 1), ("fillB", .num 1),
      ("cornerRadius", .num 12), ("select", .bool false)] s3
  let contentId := (extractNodeId content.1).getD shellId
  let s5 := (runStep "create_text" [
      ("parentId", .str contentId), ("text", .str "Dashboard Overview"),
      ("fontFamily", .str "Inter"), ("fontStyle", .str "Bold"), ("fontSize", .num 30),
      ("fillR", .num 0.11), ("fillG", .num 0.12), ("fillB", .num 0.17),
      ("select", .bool false)] content.2).2
  let s6 := (runStep "create_text" [
      ("parentId", .str contentId),
      ("text", .str "Clear hierarchy with production-ready spacing and card primitives."),
      ("fontFamily", .str "Inter"), ("fontStyle", .str "Regular"), ("fontSize", .num 15),
      ("fillR", .num 0.35), ("fillG", .num 0.38), ("fillB", .num 0.49),
      ("select", .bool false)] s5).2
  let stats := runStep "create_frame" [
      ("parentId", .str contentId), ("name", .str "Stats"),
      ("width", .num (max 300 (contentWidth - sidebarWidth - 62))), ("height", .num 116),
      ("layoutMode", .str (if isMobile then "VERTICAL" else "HORIZONTAL")),
      ("primaryAxisSizingMode", .str "AUTO"), ("counterAxisSizingMode", .str "FIXED"),
      ("itemSpacing", .num 10),
      ("fillR", .num 1), ("fillG", .num 1), ("fillB", .num 1),
      ("fillOpacity", .num 0), ("select", .bool false)] s6
  let statsId := (extractNodeId stats.1).getD contentId
  let s8 := ["Active boards", "Design tokens", "Open reviews"].foldl
    (dashboardMetricStep isMobile contentWidth statsId) stats.2
  (runStep "create_rectangle" [
      ("parentId", .str contentId), ("name", .str "Chart Placeholder"),
      ("width", .num (max 300 (contentWidth - sidebarWidth - 62))), ("height", .num 260),
      ("cornerRadius", .num 12),
      ("fillR", .num 0.93), ("fillG", .num 0.945), ("fillB", .num 0.985),
      ("select", .bool true)] s8).2

/-- One iteration of the feature-card loop (src/server/src/index.ts:887-934),
over a `(title, body)` pair. -/
def landingFeatureStep (isMobile : Bool) (contentWidth : ℚ) (featureRowId : String)
    (s : LocalSt) (item : String × String) : LocalSt :=
  let card := runStep "create_component" [
      ("parentId", .str featureRowId), ("name", .str ("Feature / " ++ item.1)),
      ("width", .num (if isMobile then max 250 contentWidth
                      else max 220 (jsFloor ((contentWidth - 20) / 3)))),
      ("height", .num 160), ("cornerRadius", .num 12),
      ("fillR", .num 0.955), ("fillG", .num 0.963), ("fillB", .num 0.982),
      ("layoutMode", .str "VERTICAL"),
      ("primaryAxisSizingMode", .str "AUTO"), ("counterAxisSizingMode", .str "FIXED"),
      ("itemSpacing", .num 8),
      ("paddingTop", .num 16), ("paddingRight", .num 16),
      ("paddingBottom", .num 16), ("paddingLeft", .num 16),
      ("select", .bool false)] s
  let cardId := (extractNodeId card.1).getD featureRowId
  let s1 := (runStep "create_text" [
      ("parentId", .str cardId), ("text", .str item.1),
      ("fontFamily", .str "Inter"), ("fontStyle", .str "Bold"), ("fontSize", .num 19),
      ("fillR", .num 0.14), ("fillG", .num 0.16), ("fillB", .num 0.22),
      ("select", .bool false)] card.2).2
  (runStep "create_text" [
      ("parentId", .str cardId), ("text", .str item.2),
      ("fontFamily", .str "Inter"), ("fontStyle", .str "Regular"), ("fontSize", .num 14),
      ("fillR", .num 0.35), ("fillG", .num 0.39), ("fillB", .num 0.5),
      ("select", .bool false)] s1).2

/-- The landing-page recipe of `runLocalAgent`
(src/server/src/index.ts:703-945). -/
def landingBranch (isMobile : Bool) (contentWidth : ℚ) (message rootId : String)
    (s : LocalSt) : LocalSt :=
  let nav := runStep "create_frame" [
      ("parentId", .str rootId), ("name", .str "Navbar"),
      ("width", .num contentWidth), ("height", .num 72),
      ("layoutMode", .str "HORIZONTAL"),
      ("primaryAxisSizingMode", .str "FIXED"), ("counterAxisSizingMode", .str "FIXED"),
      ("primaryAxisAlignItems", .str "SPACE_BETWEEN"), ("counterAxisAlignItems", .str "CENTER"),
      ("paddingTop", .num 14), ("paddingRight", .num 18),
      ("paddingBottom", .num 14), ("paddingLeft", .num 18),
      ("fillR", .num 0.94), ("fillG", .num 0.95), ("fillB", .num 0.97),
      ("cornerRadius", .num 12), ("select", .bool false)] s
  let navId := (extractNodeId nav.1).getD rootId
  let s2 := (runStep "create_text" [
      ("parentId", .str navId), ("text", .str "CursorCanvas"),
      ("fontFamily", .str "Inter"), ("fontStyle", .str "Bold"), ("fontSize", .num 20),
      ("fillR", .num 0.12), ("fillG", .num 0.13), ("fillB", .num 0.18),
      ("select", .bool false)] nav.2).2
  let s3 := (runStep "create_text" [
      ("parentId", .str navId), ("text", .str "Docs   Pricing   Login"),
      ("fontFamily", .str "Inter"), ("fontStyle", .str "Medium"), ("fontSize", .num 13),
      ("fillR", .num 0.35), ("fillG", .num 0.39), ("fillB", .num 0.5),
      ("select", .bool false)] s2).2
  let hero := runStep "create_frame" [
      ("parentId", .str rootId), ("name", .str "Hero"),
      ("width", .num contentWidth), ("height", .num (if isMobile then 360 else 420)),
      ("layoutMode", .str "VERTICAL"),
      ("primaryAxisSizingMode", .str "FIXED"), ("counterAxisSizingMode", .str "FIXED"),
      ("itemSpacing", .num 14),
      ("paddingTop", .num (if isMobile then 24 else 34)),
      ("paddingRight", .num (if isMobile then 22 else 30)),
      ("paddingBottom", .num (if isMobile then 24 else 34)),
      ("paddingLeft", .num (if isMobile then 22 else 30)),
      ("fillR", .num 0.93), ("fillG", .num 0.944), ("fillB", .num 0.982),
      ("cornerRadius", .num 16), ("select", .bool false)] s3
  let heroId := (extractNodeId hero.1).getD rootId
  let s5 := (runStep "create_text" [
      ("parentId", .str heroId), ("text", .str "Design polished interfaces in one pass"),
      ("fontFamily", .str "Inter"), ("fontStyle", .str "Bold"),
      ("fontSize", .num (if isMobile then 36 else 56)),
      ("fillR", .num 0.09), ("fillG", .num 0.1), ("fillB", .num 0.14),
      ("select", .bool false)] hero.2).2
  let s6 := (runStep "create_text" [
      ("parentId", .str heroId),
      ("text", .str "Frame-first structure, clean spacing rhythm, and reusable components ready for handoff."),
      ("fontFamily", .str "Inter"), ("fontStyle", .str "Regular"),
      ("fontSize", .num (if isMobile then 15 else 18)),
      ("fillR", .num 0.32), ("fillG", .num 0.35), ("fillB", .num 0.45),
      ("select", .bool false)] s5).2
  let ctaRow := runStep "create_frame" [
      ("parentId", .str heroId), ("name", .str "CTA"),
      ("width", .num (max 240 (contentWidth - 60))), ("height", .num 58),
      ("layoutMode", .str "HORIZONTAL"),
      ("primaryAxisSizingMode", .str "AUTO"), ("counterAxisSizingMode", .str "AUTO"),
      ("itemSpacing", .num 10),
      ("fillR", .num 1), ("fillG", .num 1), ("fillB", .num 1),
      ("fillOpacity", .num 0), ("select", .bool false)] s6
  let ctaRowId := (extractNodeId ctaRow.1).getD heroId
  let primary := runStep "create_component" [
      ("parentId", .str ctaRowId), ("name", .str "Button / Primary"),
      ("width", .num 170), ("height", .num 48), ("cornerRadius", .num 9),
      ("fillR", .num 0.25), ("fillG", .num 0.31), ("fillB", .num 0.9),
      ("layoutMode", .str "HORIZONTAL"),
      ("primaryAxisSizingMode", .str "AUTO"), ("counterAxisSizingMode", .str "AUTO"),
      ("primaryAxisAlignItems", .str "CENTER"), ("counterAxisAlignItems", .str "CENTER"),
      ("paddingTop", .num 12), ("paddingRight", .num 18),
      ("paddingBottom", .num 12), ("paddingLeft", .num 18),
      ("select", .bool false)] ctaRow.2
  let primaryId := (extractNodeId primary.1).getD ctaRowId
  let s9 := (runStep "create_text" [
      ("parentId", .str primaryId), ("text", .str "Start Designing"),
      ("fontFamily", .str "Inter"), ("fontStyle", .str "Medium"), ("fontSize", .num 14),
      ("fillR", .num 1), ("fillG", .num 1), ("fillB", .num 1),
      ("select", .bool false)] primary.2).2
  let secondary := runStep "create_component" [
      ("parentId", .str ctaRowId), ("name", .str "Button / Secondary"),
      ("width", .num 160), ("height", .num 48), ("cornerRadius", .num 9),
      ("fillR", .num 0.885), ("fillG", .num 0.9), ("fillB", .num 0.94),
      ("layoutMode", .str "HORIZONTAL"),
      ("primaryAxisSizingMode", .str "AUTO"), ("counterAxisSizingMode", .str "AUTO"),
      ("primaryAxisAlignItems", .str "CENTER"), ("counterAxisAlignItems", .str "CENTER"),
      ("paddingTop", .num 12), ("paddingRight", .num 18),
      ("paddingBottom", .num 12), ("paddingLeft", .num 18),
      ("select", .bool false)] s9
  let secondaryId := (extractNodeId secondary.1).getD ctaRowId
  let s11 := (runStep "create_text" [
      ("parentId", .str secondaryId), ("text", .str "View Components"),
      ("fontFamily", .str "Inter"), ("fontStyle", .str "Medium"), ("fontSize", .num 14),
      ("fillR", .num 0.16), ("fillG", .num 0.18), ("fillB", .num 0.26),
      ("select", .bool false)] secondary.2).2
  let featureRow := runStep "create_frame" [
      ("parentId", .str rootId), ("name", .str "Feature Cards"),
      ("width", .num contentWidth), ("height", .num 170),
      ("layoutMode", .str (if isMobile then "VERTICAL" else "HORIZONTAL")),
      ("primaryAxisSizingMode", .str "AUTO"), ("counterAxisSizingMode", .str "FIXED"),
      ("itemSpacing", .num 10),
      ("fillR", .num 1), ("fillG", .num 1), ("fillB", .num 1),
      ("fillOpacity", .num 0), ("select", .bool false)] s11
  let featureRowId := (extractNodeId featureRow.1).getD rootId
  let s13 := [("Auto Layout First", "Generated comps stay editable and structured."),
      ("Token Driven", "Neutral base + semantic accent keeps themes stable."),
      ("Handoff Ready", "Production-friendly hierarchy and spacing rhythm.")].foldl
    (landingFeatureStep isMobile contentWidth featureRowId) featureRow.2
  (runStep "create_text" [
      ("parentId", .str rootId), ("text", .str ("Prompt: " ++ jsSlice140 message)),
      ("fontFamily", .str "Inter"), ("fontStyle", .str "Regular"), ("fontSize", .num 12),
      ("fillR", .num 0.42), ("fillG", .num 0.46), ("fillB", .num 0.58),
      ("select", .bool true)] s13).2

/-- The summary `runLocalAgent` builds from the audit trail
(src/server/src/index.ts:948-953): count successes and failures, report
full success or the mixed counts. -/
def localAssistantSummary (toolCalls : List ExecutedToolCall) : String :=
  let successCount := (toolCalls.filter fun c => c.error.isNone).length
  let failCount := toolCalls.length - successCount
  if failCount = 0 then
    "Local agent generated a structured layout with " ++ toString successCount ++
      " Figma actions. Review and iterate from this frame-first starting point."
  else
    "Local agent executed " ++ toString successCount ++ " action(s) with " ++
      toString failCount ++ " error(s)."

/-- `runLocalAgent` (src/server/src/index.ts:371-955): blend the message
with the context strings, pick a recipe from keyword cues, create the root
frame — aborting with a failure message when it yields no node id — then
run the selected recipe and summarise successes and errors. -/
def runLocalAgent (message researchContext designProfile : String)
    (exec : Nat → Except String JVal) : String × List ExecutedToolCall :=
  let blended := jsToLower (message ++ "\n" ++ researchContext ++ "\n" ++ designProfile)
  let isMobile := jsIncludes blended "mobile"
  let isTablet := jsIncludes blended "tablet"
  let isDashboard := jsIncludes blended "dashboard" || jsIncludes blended "admin" ||
    jsIncludes blended "app"
  let canvasWidth : ℚ := if isMobile then 390 else if isTablet then 834 else 1366
  let canvasHeight : ℚ := if isMobile then 844 else if isTablet then 1194 else 900
  let canvasPadding : ℚ := if isMobile then 20 else 32
  let contentWidth : ℚ := max 280 (canvasWidth - canvasPadding * 2)
  let root := runStep "create_frame" [
      ("name", .str (if isDashboard then "App Shell Canvas" else "Landing Canvas")),
      ("width", .num canvasWidth), ("height", .num canvasHeight),
      ("layoutMode", .str "VERTICAL"),
      ("primaryAxisSizingMode", .str "FIXED"), ("counterAxisSizingMode", .str "FIXED"),
      ("itemSpacing", .num 20),
      ("paddingTop", .num canvasPadding), ("paddingRight", .num canvasPadding),
      ("paddingBottom", .num canvasPadding), ("paddingLeft", .num canvasPadding),
      ("fillR", .num 0.985), ("fillG", .num 0.987), ("fillB", .num 0.992),
      ("select", .bool false)] ⟨exec, 0, []⟩
  match extractNodeId root.1 with
  | none => ("Local agent could not initialize a root frame in Figma.", root.2.toolCalls)
  | some rootId =>
      let final : LocalSt :=
        if jsIncludes blended "button" && !isDashboard && !(jsIncludes blended "page") then
          buttonBranch contentWidth rootId root.2
        else if isDashboard then
          dashboardBranch isMobile contentWidth rootId root.2
        else
          landingBranch isMobile contentWidth message rootId root.2
      (localAssistantSummary final.toolCalls, final.toolCalls)

/-- No socket usable for pushing: either none is attached or the attached
one is not in the OPEN ready state. -/
def socketNotOpen (s : RelayState) : Prop :=
  ∀ sock, s.pluginSocket = some sock → sock.readyState ≠ 1

/-- C1: dispatching through `sendToPlugin` with an open socket sends the
invocation as a single socket message and does not touch the FIFO; with no
open socket it appends to the FIFO, and a parked long-poll response (if
any) immediately receives the oldest queued invocation — possibly the one
just appended — and the parked slot is cleared. -/
theorem C1_sendToPlugin_delivery (s : RelayState) (id tool : String) (params : JsonObject) :
    (∀ sock, s.pluginSocket = some sock → sock.readyState = 1 →
      sendToPlugin s id tool params =
        { state := { s with pending := insertPending s.pending id },
          socketSent := [⟨id, tool, params⟩], pollAnswers := [] }) ∧
    (socketNotOpen s → s.waitingGetRes = none →
      sendToPlugin s id tool params =
        { state := { s with pending := insertPending s.pending id,
                            httpCommandQueue := s.httpCommandQueue ++ [⟨id, tool, params⟩] },
          socketSent := [], pollAnswers := [] }) ∧
    (socketNotOpen s → ∀ res, s.waitingGetRes = some res →
      ∃ c rest, s.httpCommandQueue ++ [⟨id, tool, params⟩] = c :: rest ∧
        sendToPlugin s id tool params =
          { state := { s with pending := insertPending s.pending id,
                              httpCommandQueue := rest, waitingGetRes := none },
            socketSent := [], pollAnswers := [(res, c)] }) := by
  refine ⟨fun sock hs hr => ?_, fun hns hw => ?_, fun hns res hw => ?_⟩
  · simp [sendToPlugin, hs, hr]
  · rcases hsp : s.pluginSocket with _ | sock
    · simp [sendToPlugin, hsp, hw]
    · have := hns sock hsp
      simp [sendToPlugin, hsp, hw, this]
  · rcases hq : s.httpCommandQueue with _ | ⟨c, rest⟩
    · refine ⟨⟨id, tool, params⟩, [], by simp, ?_⟩
      rcases hsp : s.pluginSocket with _ | sock
      · simp [sendToPlugin, hsp, hw, hq]
      · have := hns sock hsp
        simp [sendToPlugin, hsp, hw, hq, this]
    · refine ⟨c, rest ++ [⟨id, tool, params⟩], by simp, ?_⟩
      rcases hsp : s.pluginSocket with _ | sock
      · simp [sendToPlugin, hsp, hw, hq]
      · have := hns sock hsp
        simp [sendToPlugin, hsp, hw, hq, this]

/-- Witness for `C1_sendToPlugin_delivery` at concrete states: an open
socket, and a socket-less state with a parked poll and an empty queue. -/
theorem C1_sendToPlugin_delivery_witness :
    sendToPlugin ⟨some ⟨3, 1⟩, [], [], none, none⟩ "a" "create_frame" [] =
      { state := { (⟨some ⟨3, 1⟩, [], [], none, none⟩ : RelayState) with
                     pending := insertPending [] "a" },
        socketSent := [⟨"a", "create_frame", []⟩], pollAnswers := [] } ∧
    (∃ c rest, ([] : List QueuedInvocation) ++ [⟨"b", "create_text", []⟩] = c :: rest ∧
      sendToPlugin ⟨none, [], [], some 1, none⟩ "b" "create_text" [] =
        { state := { (⟨none, [], [], some 1, none⟩ : RelayState) with
                       pending := insertPending [] "b",
                       httpCommandQueue := rest, waitingGetRes := none },
          socketSent := [], pollAnswers := [(1, c)] }) :=
  ⟨(C1_sendToPlugin_delivery ⟨some ⟨3, 1⟩, [], [], none, none⟩ "a" "create_frame" []).1
      ⟨3, 1⟩ rfl rfl,
   (C1_sendToPlugin_delivery ⟨none, [], [], some 1, none⟩ "b" "create_text" []).2.2
      (fun _ h => nomatch h) 1 rfl⟩

/-- C2: a reply whose id has no pending invocation is a silent no-op of the
`/result` handler (total function, no throw, state unchanged, nothing
settled); a firing timeout removes the id from the pending map and rejects
exactly once, after which both a late reply and a second timeout for the
same id settle nothing. -/
theorem C2_late_reply_ignored (s : RelayState) (id : String) (msg : ReplyMsg) :
    (∀ i, msg.id = some i → s.pending.contains i = false → resultPost s msg = (s, [])) ∧
    (s.pending.Nodup → s.pending.contains id = true →
      timeoutFire s id =
        ({ s with pending := s.pending.erase id }, [.rejected id "Plugin timeout"]) ∧
      (∀ msg2 : ReplyMsg, msg2.id = some id →
        resultPost { s with pending := s.pending.erase id } msg2 =
          ({ s with pending := s.pending.erase id }, [])) ∧
      timeoutFire { s with pending := s.pending.erase id } id =
        ({ s with pending := s.pending.erase id }, [])) := by
  constructor
  · intro i hi hc
    have hcm : i ∉ s.pending := by simpa using hc
    cases hmsg : msg.id with
    | none => simp [resultPost, hmsg]
    | some j =>
        rw [hmsg] at hi
        cases hi
        simp [resultPost, hmsg, hcm]
  · intro hnd hc
    have hmem : id ∈ s.pending := by simpa using hc
    have herase : id ∉ s.pending.erase id := fun hmemE =>
      ((List.Nodup.mem_erase_iff hnd).1 hmemE).1 rfl
    refine ⟨by simp [timeoutFire, hmem], fun msg2 h2 => ?_, by simp [timeoutFire, herase]⟩
    simp [resultPost, h2, herase]

/-- Witness for `C2_late_reply_ignored`: the pending map holds exactly
`"x"`; a reply for the unknown id `"y"` is dropped, the timeout for `"x"`
fires once, and afterwards a late reply for `"x"` and a second timeout are
both no-ops. -/
theorem C2_late_reply_ignored_witness :
    resultPost ⟨none, ["x"], [], none, none⟩ ⟨some "y", none, none⟩ =
      (⟨none, ["x"], [], none, none⟩, []) ∧
    timeoutFire ⟨none, ["x"], [], none, none⟩ "x" =
      ({ (⟨none, ["x"], [], none, none⟩ : RelayState) with
           pending := (["x"].erase "x") }, [.rejected "x" "Plugin timeout"]) ∧
    resultPost { (⟨none, ["x"], [], none, none⟩ : RelayState) with
                   pending := (["x"].erase "x") } ⟨some "x", some (.str "v"), none⟩ =
      ({ (⟨none, ["x"], [], none, none⟩ : RelayState) with
           pending := (["x"].erase "x") }, []) ∧
    timeoutFire { (⟨none, ["x"], [], none, none⟩ : RelayState) with
                    pending := (["x"].erase "x") } "x" =
      ({ (⟨none, ["x"], [], none, none⟩ : RelayState) with
           pending := (["x"].erase "x") }, []) :=
  ⟨(C2_late_reply_ignored ⟨none, ["x"], [], none, none⟩ "x" ⟨some "y", none, none⟩).1
      "y" rfl (by decide),
   ((C2_late_reply_ignored ⟨none, ["x"], [], none, none⟩ "x" ⟨some "y", none, none⟩).2
      (by decide) (by decide)).1,
   ((C2_late_reply_ignored ⟨none, ["x"], [], none, none⟩ "x" ⟨some "y", none, none⟩).2
      (by decide) (by decide)).2.1 ⟨some "x", some (.str "v"), none⟩ rfl,
   ((C2_late_reply_ignored ⟨none, ["x"], [], none, none⟩ "x" ⟨some "y", none, none⟩).2
      (by decide) (by decide)).2.2⟩

/-- A state with one pending invocation and an attached open socket, used
to exercise the socket `close` handler. -/
def c3State : RelayState :=
  { pluginSocket := some ⟨7, 1⟩, pending := ["call-1"], httpCommandQueue := [],
    waitingGetRes := none, lastFigmaPrompt := none }

/-- C3 counterexample: when the active socket closes while invocation
`"call-1"` is pending, the close handler clears the socket reference but
performs no settlement at all — the invocation is still pending afterwards,
refuting the claim that every pending invocation is rejected with a
disconnect reason within one event-loop turn of the close. -/
theorem C3_socket_close_counterexample :
    socketClose c3State ⟨7, 1⟩ = ({ c3State with pluginSocket := none }, []) ∧
    (socketClose c3State ⟨7, 1⟩).1.pending = ["call-1"] ∧
    (socketClose c3State ⟨7, 1⟩).2 = [] := by
  refine ⟨rfl, rfl, rfl⟩

/-- C3 (amended): closing the active socket only clears the current-socket
reference (and leaves the state untouched when the closing socket is not
the current one); no pending invocation is rejected by the close — each
stays in the pending map, to be rejected only by its own 20-second
timeout. -/
theorem C3_socket_close_amended (s : RelayState) (ws : Socket) (id : String) :
    (s.pluginSocket = some ws → socketClose s ws = ({ s with pluginSocket := none }, [])) ∧
    (s.pluginSocket ≠ some ws → socketClose s ws = (s, [])) ∧
    (socketClose s ws).1.pending = s.pending ∧
    (socketClose s ws).2 = [] ∧
    (s.pending.contains id = true →
      timeoutFire (socketClose s ws).1 id =
        ({ (socketClose s ws).1 with pending := s.pending.erase id },
         [.rejected id "Plugin timeout"])) := by
  refine ⟨fun h => by simp [socketClose, h], fun h => ?_, ?_, ?_, fun hc => ?_⟩
  · have : (s.pluginSocket == some ws) = false := by
      cases hsp : s.pluginSocket with
      | none => rfl
      | some sock =>
          rw [hsp] at h
          simpa using fun he => h (by rw [he])
    simp [socketClose, this]
  · by_cases h : s.pluginSocket == some ws <;> simp [socketClose, h]
  · simp [socketClose]
  · have hmem : id ∈ s.pending := by simpa using hc
    by_cases h : s.pluginSocket == some ws <;> simp [socketClose, h, timeoutFire, hmem]

/-- Witness for `C3_socket_close_amended` at the concrete `c3State`. -/
theorem C3_socket_close_amended_witness :
    socketClose c3State ⟨7, 1⟩ = ({ c3State with pluginSocket := none }, []) ∧
    (socketClose c3State ⟨7, 1⟩).1.pending = c3State.pending ∧
    (socketClose c3State ⟨7, 1⟩).2 = [] ∧
    timeoutFire (socketClose c3State ⟨7, 1⟩).1 "call-1" =
      ({ (socketClose c3State ⟨7, 1⟩).1 with pending := c3State.pending.erase "call-1" },
       [.rejected "call-1" "Plugin timeout"]) :=
  ⟨(C3_socket_close_amended c3State ⟨7, 1⟩ "call-1").1 rfl,
   (C3_socket_close_amended c3State ⟨7, 1⟩ "call-1").2.2.1,
   (C3_socket_close_amended c3State ⟨7, 1⟩ "call-1").2.2.2.1,
   (C3_socket_close_amended c3State ⟨7, 1⟩ "call-1").2.2.2.2 (by decide)⟩

/-- A state with a parked long-poll response (identity 1), an empty FIFO
and no socket. -/
def c4State : RelayState :=
  { pluginSocket := none, pending := [], httpCommandQueue := [],
    waitingGetRes := some 1, lastFigmaPrompt := none }

/-- C4 counterexample: with poll 1 parked and the queue empty, a second
long-poll request (identity 2) is neither rejected nor queued distinctly —
the handler silently overwrites the parked slot with it and answers
nothing; the next dispatched invocation then goes to poll 2 alone, so
poll 1 was silently dropped, refuting the claim. -/
theorem C4_parked_poll_counterexample :
    pollArrive c4State 2 = ({ c4State with waitingGetRes := some 2 }, []) ∧
    (sendToPlugin { c4State with waitingGetRes := some 2 }
        "id-1" "create_frame" []).pollAnswers = [(2, ⟨"id-1", "create_frame", []⟩)] ∧
    (sendToPlugin { c4State with waitingGetRes := some 2 }
        "id-1" "create_frame" []).state.waitingGetRes = none := by
  refine ⟨rfl, rfl, rfl⟩

/-- C4 (amended): at most one parked long-poll exists at any time (the slot
is a single reference); a second long-poll arriving while one is parked
and the queue is empty becomes the new parked poll, silently replacing the
first, which never receives a response; when an invocation is then
dispatched, exactly one of the two — the most recent — receives it and the
slot is cleared. -/
theorem C4_parked_poll_amended (s : RelayState) (res2 : Nat) (id tool : String)
    (params : JsonObject) (hq : s.httpCommandQueue = []) :
    pollArrive s res2 = ({ s with waitingGetRes := some res2 }, []) ∧
    (socketNotOpen s →
      (sendToPlugin { s with waitingGetRes := some res2 } id tool params).pollAnswers =
        [(res2, ⟨id, tool, params⟩)] ∧
      (sendToPlugin { s with waitingGetRes := some res2 } id tool params).state.waitingGetRes =
        none) := by
  constructor
  · simp [pollArrive, hq]
  · intro hns
    rcases hsp : s.pluginSocket with _ | sock
    · constructor <;> simp [sendToPlugin, hsp, hq]
    · have := hns sock hsp
      constructor <;> simp [sendToPlugin, hsp, hq, this]

/-- Witness for `C4_parked_poll_amended` at the concrete `c4State`. -/
theorem C4_parked_poll_amended_witness :
    pollArrive c4State 2 = ({ c4State with waitingGetRes := some 2 }, []) ∧
    (sendToPlugin { c4State with waitingGetRes := some 2 }
        "id-9" "create_text" []).pollAnswers = [(2, ⟨"id-9", "create_text", []⟩)] ∧
    (sendToPlugin { c4State with waitingGetRes := some 2 }
        "id-9" "create_text" []).state.waitingGetRes = none :=
  ⟨(C4_parked_poll_amended c4State 2 "id-9" "create_text" [] rfl).1,
   ((C4_parked_poll_amended c4State 2 "id-9" "create_text" [] rfl).2
      (fun _ h => nomatch h)).1,
   ((C4_parked_poll_amended c4State 2 "id-9" "create_text" [] rfl).2
      (fun _ h => nomatch h)).2⟩

/-- C9: `get_figma_prompt` returns the stored handoff message and clears
the slot in the same (single-threaded, hence atomic) operation: the
post-state never stores the returned message, an immediately following
invocation with no intervening set returns the no-prompt response, and a
message freshly posted via `POST /prompt` is returned trimmed. -/
theorem C9_get_and_clear (s : RelayState) (t u : String) :
    (getFigmaPrompt s).1 = { s with lastFigmaPrompt := none } ∧
    (s.lastFigmaPrompt = some t → (getFigmaPrompt s).2 = .withPrompt t) ∧
    (s.lastFigmaPrompt = none → (getFigmaPrompt s).2 = .noPrompt) ∧
    (getFigmaPrompt (getFigmaPrompt s).1).2 = .noPrompt ∧
    (jsTrim u ≠ "" →
      (getFigmaPrompt (promptPost s (some u))).2 = .withPrompt (jsTrim u)) := by
  refine ⟨rfl, fun h => by simp [getFigmaPrompt, h], fun h => by simp [getFigmaPrompt, h],
    rfl, fun h => ?_⟩
  simp [getFigmaPrompt, promptPost, trimOrNull, h]

/-- Witness for `C9_get_and_clear` at a concrete state holding a message. -/
theorem C9_get_and_clear_witness :
    (getFigmaPrompt ⟨none, [], [], none, some "draw a hero"⟩).1 =
      { (⟨none, [], [], none, some "draw a hero"⟩ : RelayState) with lastFigmaPrompt := none } ∧
    (getFigmaPrompt ⟨none, [], [], none, some "draw a hero"⟩).2 = .withPrompt "draw a hero" ∧
    (getFigmaPrompt (getFigmaPrompt ⟨none, [], [], none, some "draw a hero"⟩).1).2 = .noPrompt ∧
    (getFigmaPrompt (promptPost ⟨none, [], [], none, some "draw a hero"⟩
        (some " add a navbar "))).2 = .withPrompt (jsTrim " add a navbar ") :=
  ⟨(C9_get_and_clear ⟨none, [], [], none, some "draw a hero"⟩ "draw a hero" " add a navbar ").1,
   (C9_get_and_clear ⟨none, [], [], none, some "draw a hero"⟩
      "draw a hero" " add a navbar ").2.1 rfl,
   (C9_get_and_clear ⟨none, [], [], none, some "draw a hero"⟩
      "draw a hero" " add a navbar ").2.2.2.1,
   (C9_get_and_clear ⟨none, [], [], none, some "draw a hero"⟩
      "draw a hero" " add a navbar ").2.2.2.2 (by decide)⟩

/-- C10: on both reply ingress paths — the socket `message` handler and
`POST /result` — a pending invocation whose reply carries a non-empty
error string is rejected with that error even when a result value is also
present; the result value resolves the promise only when the error field
is absent or the empty string. -/
theorem C10_error_over_result (s : RelayState) (i e : String) (r : JVal)
    (hi : i ≠ "") (hc : s.pending.contains i = true) (he : e ≠ "") :
    resultPost s ⟨some i, some r, some e⟩ =
      ({ s with pending := s.pending.erase i }, [.rejected i e]) ∧
    resultPost s ⟨some i, some r, none⟩ =
      ({ s with pending := s.pending.erase i }, [.resolved i (some r)]) ∧
    resultPost s ⟨some i, some r, some ""⟩ =
      ({ s with pending := s.pending.erase i }, [.resolved i (some r)]) ∧
    wsMessage s ⟨none, none, some i, some r, some e⟩ =
      ({ s with pending := s.pending.erase i }, [.rejected i e]) ∧
    wsMessage s ⟨none, none, some i, some r, none⟩ =
      ({ s with pending := s.pending.erase i }, [.resolved i (some r)]) := by
  have hmem : i ∈ s.pending := by simpa using hc
  refine ⟨?_, ?_, ?_, ?_, ?_⟩ <;> simp [resultPost, wsMessage, hi, hmem, he]

/-- Witness for `C10_error_over_result`: pending id `"z"`, error text
`"bad param"` alongside a result value. -/
theorem C10_error_over_result_witness :
    ("z" : String) ≠ "" ∧
    (RelayState.pending ⟨none, ["z"], [], none, none⟩).contains "z" = true ∧
    ("bad param" : String) ≠ "" ∧
    resultPost ⟨none, ["z"], [], none, none⟩ ⟨some "z", some (.str "v"), some "bad param"⟩ =
      ({ (⟨none, ["z"], [], none, none⟩ : RelayState) with pending := ["z"].erase "z" },
       [.rejected "z" "bad param"]) :=
  ⟨by decide, by decide, by decide,
   (C10_error_over_result ⟨none, ["z"], [], none, none⟩ "z" "bad param" (.str "v")
     (by decide) (by decide) (by decide)).1⟩

/-- C7: both planners sit behind `handleChatRequest`'s guards, so a chat
request with a blank message, an unready data transport (no open socket
and no parked long-poll), or — for the openai provider — no resolvable API
key is rejected with a single top-level error and HTTP status 400, and no
tool invocation is dispatched, whatever the planners would do. -/
theorem C7_chat_reject_fast
    (localAgent : String → String → String → AgentOutcome)
    (openaiAgent : String → List ChatMessage → String → String → String → String → AgentOutcome)
    (envKey : Option String) (relay : RelayState) (payload : ChatRequest) :
    (jsTrim (payload.message.getD "") = "" →
      chatRoute localAgent openaiAgent envKey relay payload =
        (400, .failure "message is required", [])) ∧
    (pluginBridgeReady relay = false →
      (chatRoute localAgent openaiAgent envKey relay payload).1 = 400 ∧
      (chatRoute localAgent openaiAgent envKey relay payload).2.2 = []) ∧
    (jsTrim (payload.message.getD "") ≠ "" → pluginBridgeReady relay = false →
      chatRoute localAgent openaiAgent envKey relay payload =
        (400, .failure "Figma plugin is not connected. Click Connect in CursorCanvas first.",
         [])) ∧
    (jsTrim (payload.message.getD "") ≠ "" → pluginBridgeReady relay = true →
      jsToLower (payload.provider.getD "local") = "openai" →
      resolveOpenAIKey payload.apiKey envKey = none →
      chatRoute localAgent openaiAgent envKey relay payload =
        (400, .failure "OpenAI API key missing. Add it in plugin UI or OPENAI_API_KEY env.",
         [])) := by
  refine ⟨fun hm => ?_, fun hr => ?_, fun hm hr => ?_, fun hm hr hp hk => ?_⟩
  · simp [chatRoute, handleChatRequest, hm]
  · by_cases hm : jsTrim (payload.message.getD "") = "" <;>
      simp [chatRoute, handleChatRequest, hm, hr]
  · simp [chatRoute, handleChatRequest, hm, hr]
  · simp [chatRoute, handleChatRequest, hm, hr, hp, hk]

/-- Witness for `C7_chat_reject_fast`: with planners that would each
dispatch an invocation, an unready relay rejects the turn with status 400
and dispatches nothing, and a ready relay (parked poll) with an
all-whitespace request key and no environment key rejects the openai
provider the same way. -/
theorem C7_chat_reject_fast_witness :
    chatRoute (fun _ _ _ => ⟨"t", [], [⟨"q", "create_frame", []⟩]⟩)
        (fun _ _ _ _ _ _ => ⟨"t", [], [⟨"q", "create_frame", []⟩]⟩)
        none ⟨none, [], [], none, none⟩ { message := some "draw" } =
      (400, .failure "Figma plugin is not connected. Click Connect in CursorCanvas first.",
       []) ∧
    chatRoute (fun _ _ _ => ⟨"t", [], [⟨"q", "create_frame", []⟩]⟩)
        (fun _ _ _ _ _ _ => ⟨"t", [], [⟨"q", "create_frame", []⟩]⟩)
        none ⟨none, [], [], some 1, none⟩
        { provider := some "OpenAI", apiKey := some "  ", message := some "draw" } =
      (400, .failure "OpenAI API key missing. Add it in plugin UI or OPENAI_API_KEY env.",
       []) :=
  ⟨(C7_chat_reject_fast (fun _ _ _ => ⟨"t", [], [⟨"q", "create_frame", []⟩]⟩)
      (fun _ _ _ _ _ _ => ⟨"t", [], [⟨"q", "create_frame", []⟩]⟩)
      none ⟨none, [], [], none, none⟩ { message := some "draw" }).2.2.1
      (by decide) (by decide),
   (C7_chat_reject_fast (fun _ _ _ => ⟨"t", [], [⟨"q", "create_frame", []⟩]⟩)
      (fun _ _ _ _ _ _ => ⟨"t", [], [⟨"q", "create_frame", []⟩]⟩)
      none ⟨none, [], [], some 1, none⟩
      { provider := some "OpenAI", apiKey := some "  ", message := some "draw" }).2.2.2
      (by decide) (by decide) (by decide) (by decide)⟩

/-- Each handled call of a round appends exactly one audit record,
regardless of its success or failure. -/
theorem execCalls_toolCalls_length (exec : Nat → Except String JVal)
    (argParse : String → Option JsonObject) :
    ∀ (calls : List OpenAIFunctionCall) (k : Nat) (acc : List ExecutedToolCall),
      (execCalls exec argParse calls k acc).2.1.length = acc.length + calls.length := by
  intro calls
  induction calls with
  | nil => intro k acc; simp [execCalls]
  | cons c rest ih =>
      intro k acc
      cases h : exec k <;> simp [execCalls, h, ih] <;> omega

/-- The audit trail grows by at most `per` records per remaining round,
when the first response and every follow-up response request at most `per`
calls. -/
theorem agentLoop_toolCalls_le (next : String → List FunctionCallOutput → OpenAIResponse)
    (exec : Nat → Except String JVal) (argParse : String → Option JsonObject) (per : Nat)
    (hnext : ∀ pid outs, (extractOpenAIFunctionCalls (next pid outs)).length ≤ per) :
    ∀ (n guard : Nat) (resp : OpenAIResponse) (k : Nat) (acc : List ExecutedToolCall),
      8 - guard ≤ n → (extractOpenAIFunctionCalls resp).length ≤ per →
      (agentLoop next exec argParse guard resp k acc).toolCalls.length ≤
        acc.length + (8 - guard) * per := by
  intro n
  induction n with
  | zero =>
      intro guard resp k acc hn _hresp
      have hg : ¬ guard < 8 := by omega
      rw [agentLoop]
      simp [hg]
  | succ m ih =>
      intro guard resp k acc hn hresp
      rw [agentLoop]
      by_cases hg : guard < 8
      · simp only [hg, dite_true, dif_pos]
        cases hcalls : extractOpenAIFunctionCalls resp with
        | nil => simp
        | cons c cs =>
            have hrec := ih (guard + 1)
              (next resp.id (execCalls exec argParse (c :: cs) k acc).1)
              (execCalls exec argParse (c :: cs) k acc).2.2
              (execCalls exec argParse (c :: cs) k acc).2.1
              (by omega) (hnext _ _)
            have hlen := execCalls_toolCalls_length exec argParse (c :: cs) k acc
            have hcle : (c :: cs).length ≤ per := by rw [← hcalls]; exact hresp
            have hmul : (8 - guard) * per = (8 - (guard + 1)) * per + per := by
              have h8 : 8 - guard = (8 - (guard + 1)) + 1 := by omega
              rw [h8, Nat.succ_mul]
            rw [hlen] at hrec
            simp only []
            refine le_trans hrec ?_
            rw [hmul]
            have := hcle
            generalize (8 - (guard + 1)) * per = Q
            simp at this ⊢
            omega
      · simp [hg]

/-- The loop executes at most 8 call rounds. -/
theorem agentLoop_rounds_le (next : String → List FunctionCallOutput → OpenAIResponse)
    (exec : Nat → Except String JVal) (argParse : String → Option JsonObject) :
    ∀ (n guard : Nat) (resp : OpenAIResponse) (k : Nat) (acc : List ExecutedToolCall),
      8 - guard ≤ n → guard ≤ 8 →
      (agentLoop next exec argParse guard resp k acc).rounds ≤ 8 := by
  intro n
  induction n with
  | zero =>
      intro guard resp k acc hn hg8
      have hg : ¬ guard < 8 := by omega
      rw [agentLoop]
      simpa [hg] using hg8
  | succ m ih =>
      intro guard resp k acc hn hg8
      rw [agentLoop]
      by_cases hg : guard < 8
      · simp only [hg, dite_true, dif_pos]
        cases hcalls : extractOpenAIFunctionCalls resp with
        | nil => simpa using hg8
        | cons c cs => exact ih (guard + 1) _ _ _ (by omega) (by omega)
      · simpa [hg] using hg8

/-- C5: `runOpenAIAgent` terminates within the fixed cap of 8 call rounds
whatever the remote oracle answers; when the first response and every
follow-up response request at most `per` calls, the returned audit trail
never exceeds 8 × `per` records; and the returned value is always the
loop's accumulated audit trail together with the final response's
extracted text (`"Done."` when that text is blank). -/
theorem C5_bounded_loop (first : OpenAIResponse)
    (next : String → List FunctionCallOutput → OpenAIResponse)
    (exec : Nat → Except String JVal) (argParse : String → Option JsonObject)
    (per : Nat) (hfirst : (extractOpenAIFunctionCalls first).length ≤ per)
    (hnext : ∀ pid outs, (extractOpenAIFunctionCalls (next pid outs)).length ≤ per) :
    (agentLoop next exec argParse 0 first 0 []).rounds ≤ 8 ∧
    (runOpenAIAgent first next exec argParse).2.length ≤ 8 * per ∧
    (runOpenAIAgent first next exec argParse).2 =
      (agentLoop next exec argParse 0 first 0 []).toolCalls ∧
    ((runOpenAIAgent first next exec argParse).1 =
        extractOpenAIText (agentLoop next exec argParse 0 first 0 []).response ∨
      (runOpenAIAgent first next exec argParse).1 = "Done.") := by
  refine ⟨agentLoop_rounds_le next exec argParse 8 0 first 0 [] (by omega) (by omega),
    ?_, rfl, ?_⟩
  · have := agentLoop_toolCalls_le next exec argParse per hnext 8 0 first 0 []
      (by omega) hfirst
    simpa [runOpenAIAgent] using this
  · by_cases h : extractOpenAIText (agentLoop next exec argParse 0 first 0 []).response = ""
    · right; simp [runOpenAIAgent, h]
    · left; simp [runOpenAIAgent, h]

/-- A remote response that requests exactly one `create_frame` call. -/
def advResponse : OpenAIResponse :=
  { id := "resp-1",
    output := some [{ type := some "function_call", name := some "create_frame",
                      call_id := some "call-1", arguments := some "\x7b\x7d", content := [] }] }

/-- Witness for `C5_bounded_loop` with an adversarial oracle whose every
response — first and all follow-ups — requests one call. -/
theorem C5_bounded_loop_witness :
    (agentLoop (fun _ _ => advResponse) (fun _ => .ok .null) (fun _ => none)
        0 advResponse 0 []).rounds ≤ 8 ∧
    (runOpenAIAgent advResponse (fun _ _ => advResponse) (fun _ => .ok .null)
        (fun _ => none)).2.length ≤ 8 * 1 ∧
    (runOpenAIAgent advResponse (fun _ _ => advResponse) (fun _ => .ok .null)
        (fun _ => none)).2 =
      (agentLoop (fun _ _ => advResponse) (fun _ => .ok .null) (fun _ => none)
        0 advResponse 0 []).toolCalls ∧
    ((runOpenAIAgent advResponse (fun _ _ => advResponse) (fun _ => .ok .null)
        (fun _ => none)).1 =
      extractOpenAIText (agentLoop (fun _ _ => advResponse) (fun _ => .ok .null)
        (fun _ => none) 0 advResponse 0 []).response ∨
     (runOpenAIAgent advResponse (fun _ _ => advResponse) (fun _ => .ok .null)
        (fun _ => none)).1 = "Done.") :=
  C5_bounded_loop advResponse (fun _ _ => advResponse) (fun _ => .ok .null) (fun _ => none)
    1 (by decide)
    (fun _ _ => (by decide : (extractOpenAIFunctionCalls advResponse).length ≤ 1))

/-- When the negotiation result settles on a pair, it is the first
`+2`-offset pair from the start at which both ports are free: every
earlier pair had at least one occupied port. -/
theorem tryPortPair_first_free (occ : Nat → Bool) :
    ∀ (n ws hp p q : Nat), FIGSOR_PORT_MAX + 1 - hp ≤ n →
      (tryPortPair occ ws hp).1 = some (p, q) →
      ∃ i, p = ws + 2 * i ∧ q = hp + 2 * i ∧ occ p = false ∧ occ q = false ∧
        ∀ j, j < i → occ (ws + 2 * j) = true ∨ occ (hp + 2 * j) = true := by
  intro n
  induction n with
  | zero =>
      intro ws hp p q hn h
      have hg : hp > FIGSOR_PORT_MAX := by
        simp [FIGSOR_PORT_MAX] at hn ⊢; omega
      rw [tryPortPair] at h
      simp [hg] at h
  | succ m ih =>
      intro ws hp p q hn h
      rw [tryPortPair] at h
      by_cases hg : hp > FIGSOR_PORT_MAX
      · simp [hg] at h
      · rw [dif_neg hg] at h
        by_cases hhp : occ hp = true
        · rw [if_pos hhp] at h
          obtain ⟨i, hp1, hq1, hfp, hfq, hprev⟩ := ih (ws + 2) (hp + 2) p q
            (by simp [FIGSOR_PORT_MAX] at hn hg ⊢; omega) h
          refine ⟨i + 1, by omega, by omega, hfp, hfq, fun j hj => ?_⟩
          cases j with
          | zero => right; simpa using hhp
          | succ j0 =>
              rcases hprev j0 (by omega) with h1 | h2
              · left; have : ws + 2 * (j0 + 1) = ws + 2 + 2 * j0 := by omega
                rw [this]; exact h1
              · right; have : hp + 2 * (j0 + 1) = hp + 2 + 2 * j0 := by omega
                rw [this]; exact h2
        · rw [if_neg hhp] at h
          by_cases hws : occ ws = true
          · rw [if_pos hws] at h
            simp only [] at h
            obtain ⟨i, hp1, hq1, hfp, hfq, hprev⟩ := ih (ws + 2) (hp + 2) p q
              (by simp [FIGSOR_PORT_MAX] at hn hg ⊢; omega) h
            refine ⟨i + 1, by omega, by omega, hfp, hfq, fun j hj => ?_⟩
            cases j with
            | zero => left; simpa using hws
            | succ j0 =>
                rcases hprev j0 (by omega) with h1 | h2
                · left; have : ws + 2 * (j0 + 1) = ws + 2 + 2 * j0 := by omega
                  rw [this]; exact h1
                · right; have : hp + 2 * (j0 + 1) = hp + 2 + 2 * j0 := by omega
                  rw [this]; exact h2
          · rw [if_neg hws] at h
            simp only [Option.some.injEq, Prod.mk.injEq] at h
            refine ⟨0, by omega, by omega, ?_, ?_, fun j hj => by omega⟩
            · rw [← h.1]; simpa using hws
            · rw [← h.2]; simpa using hhp

/-- When some `+2`-offset pair within the port range is fully free, the
negotiation settles (it does not exhaust the range). -/
theorem tryPortPair_settles (occ : Nat → Bool) :
    ∀ (n ws hp : Nat), FIGSOR_PORT_MAX + 1 - hp ≤ n →
      ∀ i, hp + 2 * i ≤ FIGSOR_PORT_MAX → occ (ws + 2 * i) = false →
        occ (hp + 2 * i) = false →
      (tryPortPair occ ws hp).1.isSome = true := by
  intro n
  induction n with
  | zero =>
      intro ws hp hn i hle _ _
      exfalso
      simp [FIGSOR_PORT_MAX] at hn hle
      omega
  | succ m ih =>
      intro ws hp hn i hle hfw hfh
      have hg : ¬ hp > FIGSOR_PORT_MAX := by
        simp [FIGSOR_PORT_MAX] at hle ⊢; omega
      rw [tryPortPair]
      rw [dif_neg hg]
      by_cases hhp : occ hp = true
      · rw [if_pos hhp]
        have hi : i ≠ 0 := by
          intro h0
          rw [h0] at hfh
          simp at hfh
          rw [hfh] at hhp
          exact Bool.false_ne_true hhp
        refine ih (ws + 2) (hp + 2)
          (by simp [FIGSOR_PORT_MAX] at hn hg ⊢; omega) (i - 1)
          (by omega) ?_ ?_
        · have : ws + 2 + 2 * (i - 1) = ws + 2 * i := by omega
          rw [this]; exact hfw
        · have : hp + 2 + 2 * (i - 1) = hp + 2 * i := by omega
          rw [this]; exact hfh
      · rw [if_neg hhp]
        by_cases hws : occ ws = true
        · rw [if_pos hws]
          have hi : i ≠ 0 := by
            intro h0
            rw [h0] at hfw
            simp at hfw
            rw [hfw] at hws
            exact Bool.false_ne_true hws
          simp only []
          refine ih (ws + 2) (hp + 2)
            (by simp [FIGSOR_PORT_MAX] at hn hg ⊢; omega) (i - 1)
            (by omega) ?_ ?_
          · have : ws + 2 + 2 * (i - 1) = ws + 2 * i := by omega
            rw [this]; exact hfw
          · have : hp + 2 + 2 * (i - 1) = hp + 2 * i := by omega
            rw [this]; exact hfh
        · rw [if_neg hws]
          rfl

/-- C6 counterexample: with another process occupying data port 3055 and
control port 3056 free, the negotiation's very first `/health`-visible
state advertises the pair (3055, 3056) with no WebSocket listener held —
the process advertises a data port that is occupied by someone else — even
though it then settles correctly on (3057, 3058).  This refutes the
"without ever advertising a port pair it does not actually hold" part of
the claim. -/
theorem C6_advertise_counterexample :
    (tryPortPair (fun p => p == 3055) 3055 3056).2.head? = some ⟨3055, 3056, false⟩ ∧
    (fun p => p == 3055) 3055 = true ∧
    (tryPortPair (fun p => p == 3055) 3055 3056).1 = some (3057, 3058) := by
  have h2 : tryPortPair (fun p => p == 3055) 3057 3058 =
      (some (3057, 3058), [⟨3057, 3058, false⟩, ⟨3057, 3058, true⟩]) := by
    rw [tryPortPair]
    norm_num [FIGSOR_PORT_MAX]
  have h1 : tryPortPair (fun p => p == 3055) 3055 3056 =
      (some (3057, 3058),
       [⟨3055, 3056, false⟩, ⟨3057, 3058, false⟩, ⟨3057, 3058, true⟩]) := by
    rw [tryPortPair]
    norm_num [FIGSOR_PORT_MAX, h2]
  rw [h1]
  refine ⟨rfl, rfl, rfl⟩

/-- C6 (amended): stale-attempt events are ignored — every negotiator
callback whose captured attempt id differs from the current counter leaves
the state untouched and takes no action — and under occupancy the
negotiator settles on the first `+2`-offset pair whose two ports are both
free, settling whenever such a pair exists within the range; however the
pair is advertised via `/health` as soon as the control port binds, before
the data port is probed and bound, so a data port the process does not
hold can transiently be advertised (see the counterexample). -/
theorem C6_port_negotiator_amended (aid ws hp : Nat) (avail addrInUse : Bool)
    (s : NegState) (occ : Nat → Bool) (p q : Nat)
    (hstale : aid ≠ s.portBindAttemptCounter) :
    onHttpListenSuccess aid ws hp s = (s, false) ∧
    onHttpError aid ws hp addrInUse s = (s, .ignore) ∧
    onProbeResult aid ws hp avail s = (s, .ignore) ∧
    onWssError aid ws hp addrInUse s = (s, .ignore) ∧
    onWssListeningLogs aid s = false ∧
    ((tryPortPair occ ws hp).1 = some (p, q) →
      ∃ i, p = ws + 2 * i ∧ q = hp + 2 * i ∧ occ p = false ∧ occ q = false ∧
        ∀ j, j < i → occ (ws + 2 * j) = true ∨ occ (hp + 2 * j) = true) ∧
    (∀ i, hp + 2 * i ≤ FIGSOR_PORT_MAX → occ (ws + 2 * i) = false →
      occ (hp + 2 * i) = false → (tryPortPair occ ws hp).1.isSome = true) := by
  refine ⟨by simp [onHttpListenSuccess, hstale], by simp [onHttpError, hstale],
    by simp [onProbeResult, hstale], by simp [onWssError, hstale],
    by simp [onWssListeningLogs, hstale],
    fun h => tryPortPair_first_free occ (FIGSOR_PORT_MAX + 1) ws hp p q ?_ h,
    fun i h1 h2 h3 => tryPortPair_settles occ (FIGSOR_PORT_MAX + 1) ws hp ?_ i h1 h2 h3⟩
  · omega
  · omega

/-- Witness for `C6_port_negotiator_amended`: attempt id 1 against a state
whose current counter is 2, and the occupancy of the counterexample. -/
theorem C6_port_negotiator_amended_witness :
    onHttpListenSuccess 1 3055 3056 ⟨2, 0, 0, none⟩ = (⟨2, 0, 0, none⟩, false) ∧
    onHttpError 1 3055 3056 true ⟨2, 0, 0, none⟩ = (⟨2, 0, 0, none⟩, .ignore) ∧
    onProbeResult 1 3055 3056 false ⟨2, 0, 0, none⟩ = (⟨2, 0, 0, none⟩, .ignore) ∧
    onWssError 1 3055 3056 true ⟨2, 0, 0, none⟩ = (⟨2, 0, 0, none⟩, .ignore) ∧
    onWssListeningLogs 1 ⟨2, 0, 0, none⟩ = false ∧
    ((tryPortPair (fun p => p == 3055) 3055 3056).1 = some (3057, 3058) →
      ∃ i, 3057 = 3055 + 2 * i ∧ 3058 = 3056 + 2 * i ∧
        (fun p => p == 3055) 3057 = false ∧ (fun p => p == 3055) 3058 = false ∧
        ∀ j, j < i → (fun p => p == 3055) (3055 + 2 * j) = true ∨
          (fun p => p == 3055) (3056 + 2 * j) = true) ∧
    (∀ i, 3056 + 2 * i ≤ FIGSOR_PORT_MAX → (fun p => p == 3055) (3055 + 2 * i) = false →
      (fun p => p == 3055) (3056 + 2 * i) = false →
      (tryPortPair (fun p => p == 3055) 3055 3056).1.isSome = true) :=
  C6_port_negotiator_amended 1 3055 3056 false true ⟨2, 0, 0, none⟩
    (fun p => p == 3055) 3057 3058 (by decide)

/-- The value `run` hands back: the result on success, `null` on failure. -/
def stepValue : Except String JVal → Option JVal
  | .ok r => some r
  | .error _ => none

/-- The audit record `run` appends for one settled invocation. -/
def stepCall (tool : String) (params : JsonObject) : Except String JVal → ExecutedToolCall
  | .ok r => { tool := tool, params := params, result := some r }
  | .error e => { tool := tool, params := params, error := some e }

/-- The error field an invocation outcome contributes to its audit record. -/
def errorOf : Except String JVal → Option String
  | .ok _ => none
  | .error e => some e

theorem runStep_eq (tool : String) (params : JsonObject) (s : LocalSt) :
    runStep tool params s =
      (stepValue (s.exec s.idx),
       { s with idx := s.idx + 1,
                toolCalls := s.toolCalls ++ [stepCall tool params (s.exec s.idx)] }) := by
  cases h : s.exec s.idx <;> simp [runStep, stepValue, stepCall, h]

theorem stepCall_error (tool : String) (params : JsonObject) (r : Except String JVal) :
    (stepCall tool params r).error = errorOf r := by
  cases r <;> rfl

theorem stepCall_tool (tool : String) (params : JsonObject) (r : Except String JVal) :
    (stepCall tool params r).tool = tool := by
  cases r <;> rfl

/-- The button recipe leaves the executor oracle unchanged. -/
theorem buttonBranch_exec (cw : ℚ) (rootId : String) (s : LocalSt) :
    (buttonBranch cw rootId s).exec = s.exec := by
  simp [buttonBranch, runStep_eq]

/-- The button recipe consumes exactly seven invocation outcomes. -/
theorem buttonBranch_idx (cw : ℚ) (rootId : String) (s : LocalSt) :
    (buttonBranch cw rootId s).idx = s.idx + 7 := by
  simp [buttonBranch, runStep_eq]

/-- The button recipe appends exactly one audit record per invocation with
the executor's outcome, whatever the individual outcomes are: no per-call
failure stops the sequence. -/
theorem buttonBranch_map_error (cw : ℚ) (rootId : String) (s : LocalSt) :
    (buttonBranch cw rootId s).toolCalls.map (fun c => c.error) =
      s.toolCalls.map (fun c => c.error) ++
        [errorOf (s.exec s.idx), errorOf (s.exec (s.idx + 1)), errorOf (s.exec (s.idx + 2)),
         errorOf (s.exec (s.idx + 3)), errorOf (s.exec (s.idx + 4)),
         errorOf (s.exec (s.idx + 5)), errorOf (s.exec (s.idx + 6))] := by
  simp [buttonBranch, runStep_eq, stepCall_error]

/-- The tools of the button recipe's audit records, in issue order. -/
theorem buttonBranch_map_tool (cw : ℚ) (rootId : String) (s : LocalSt) :
    (buttonBranch cw rootId s).toolCalls.map (fun c => c.tool) =
      s.toolCalls.map (fun c => c.tool) ++
        ["create_frame", "create_text", "create_frame", "create_component", "create_text",
         "create_component", "create_text"] := by
  simp [buttonBranch, runStep_eq, stepCall_tool]

/-- The button recipe appends exactly seven audit records. -/
theorem buttonBranch_length (cw : ℚ) (rootId : String) (s : LocalSt) :
    (buttonBranch cw rootId s).toolCalls.length = s.toolCalls.length + 7 := by
  simp [buttonBranch, runStep_eq]

/-- A fully successful audit trail yields the full-success summary. -/
theorem localAssistantSummary_full (calls : List ExecutedToolCall)
    (h : (calls.filter fun c => c.error.isNone).length = calls.length) :
    localAssistantSummary calls =
      "Local agent generated a structured layout with " ++
        toString (calls.filter fun c => c.error.isNone).length ++
        " Figma actions. Review and iterate from this frame-first starting point." := by
  simp only [localAssistantSummary]
  rw [if_pos (by omega)]

/-- A trail with at least one failure yields the mixed-count summary. -/
theorem localAssistantSummary_mixed (calls : List ExecutedToolCall)
    (h : (calls.filter fun c => c.error.isNone).length ≠ calls.length) :
    localAssistantSummary calls =
      "Local agent executed " ++ toString (calls.filter fun c => c.error.isNone).length ++
        " action(s) with " ++
        toString (calls.length - (calls.filter fun c => c.error.isNone).length) ++
        " error(s)." := by
  have hle : (calls.filter fun c => c.error.isNone).length ≤ calls.length :=
    List.length_filter_le _ _
  simp only [localAssistantSummary]
  rw [if_neg (by omega)]

/-- C8 (amended): once the root-frame invocation has produced a node id,
the local planner's selected recipe (here the button recipe, selected by a
"button" message) issues its full fixed sequence — 8 invocations with the
fixed tool order — whatever the individual outcomes: every invocation's
outcome, success or failure, is appended to the audit trail in order, a
failed non-root invocation does not abort the remainder, and the summary
reports either full success or the mixed success/error counts. -/
theorem C8_local_agent_amended (exec : Nat → Except String JVal) (rid : String)
    (hroot : extractNodeId (stepValue (exec 0)) = some rid) :
    (runLocalAgent "button" "" "" exec).2.map (fun c => c.error) =
      [errorOf (exec 0), errorOf (exec 1), errorOf (exec 2), errorOf (exec 3),
       errorOf (exec 4), errorOf (exec 5), errorOf (exec 6), errorOf (exec 7)] ∧
    (runLocalAgent "button" "" "" exec).2.map (fun c => c.tool) =
      ["create_frame", "create_frame", "create_text", "create_frame", "create_component",
       "create_text", "create_component", "create_text"] ∧
    (runLocalAgent "button" "" "" exec).2.length = 8 ∧
    (((runLocalAgent "button" "" "" exec).2.filter fun c => c.error.isNone).length =
        (runLocalAgent "button" "" "" exec).2.length →
      (runLocalAgent "button" "" "" exec).1 =
        "Local agent generated a structured layout with " ++
          toString ((runLocalAgent "button" "" "" exec).2.filter
            fun c => c.error.isNone).length ++
          " Figma actions. Review and iterate from this frame-first starting point.") ∧
    (((runLocalAgent "button" "" "" exec).2.filter fun c => c.error.isNone).length ≠
        (runLocalAgent "button" "" "" exec).2.length →
      (runLocalAgent "button" "" "" exec).1 =
        "Local agent executed " ++
          toString ((runLocalAgent "button" "" "" exec).2.filter
            fun c => c.error.isNone).length ++
          " action(s) with " ++
          toString ((runLocalAgent "button" "" "" exec).2.length -
            ((runLocalAgent "button" "" "" exec).2.filter fun c => c.error.isNone).length) ++
          " error(s).") := by
  have h1 : jsIncludes (jsToLower "button\n\n") "mobile" = false := by
    decide
  have h2 : jsIncludes (jsToLower "button\n\n") "tablet" = false := by
    decide
  have h3 : jsIncludes (jsToLower "button\n\n") "dashboard" = false := by
    decide
  have h4 : jsIncludes (jsToLower "button\n\n") "admin" = false := by
    decide
  have h5 : jsIncludes (jsToLower "button\n\n") "app" = false := by
    decide
  have h6 : jsIncludes (jsToLower "button\n\n") "button" = true := by
    decide
  have h7 : jsIncludes (jsToLower "button\n\n") "page" = false := by
    decide
  have hmap : (runLocalAgent "button" "" "" exec).2.map (fun c => c.error) =
      [errorOf (exec 0), errorOf (exec 1), errorOf (exec 2), errorOf (exec 3),
       errorOf (exec 4), errorOf (exec 5), errorOf (exec 6), errorOf (exec 7)] := by
    simp [runLocalAgent, runStep_eq, h1, h2, h3, h4, h5, h6, h7, hroot,
      buttonBranch_map_error, stepCall_error]
  have htool : (runLocalAgent "button" "" "" exec).2.map (fun c => c.tool) =
      ["create_frame", "create_frame", "create_text", "create_frame", "create_component",
       "create_text", "create_component", "create_text"] := by
    simp [runLocalAgent, runStep_eq, h1, h2, h3, h4, h5, h6, h7, hroot,
      buttonBranch_map_tool, stepCall_tool]
  have hlen : (runLocalAgent "button" "" "" exec).2.length = 8 := by
    simp [runLocalAgent, runStep_eq, h1, h2, h3, h4, h5, h6, h7, hroot, buttonBranch_length]
  have hfst : (runLocalAgent "button" "" "" exec).1 =
      localAssistantSummary (runLocalAgent "button" "" "" exec).2 := by
    simp [runLocalAgent, runStep_eq, h1, h2, h3, h4, h5, h6, h7, hroot]
  refine ⟨hmap, htool, hlen, fun h => ?_, fun h => ?_⟩
  · rw [hfst]
    exact localAssistantSummary_full _ h
  · rw [hfst]
    exact localAssistantSummary_mixed _ h

/-- An executor for which every relayed invocation times out. -/
def c8failExec : Nat → Except String JVal := fun _ => .error "Plugin timeout"

/-- An executor that responds to every invocation with a node object. -/
def c8okExec : Nat → Except String JVal := fun _ => .ok (.obj [("id", .str "node-1")])

/-- An executor whose fourth invocation (index 3) times out while all
others succeed with a node object. -/
def c8mixExec : Nat → Except String JVal :=
  fun k => if k == 3 then .error "Plugin timeout" else .ok (.obj [("id", .str "node-1")])

/-- C8 counterexample: on the same "button" chat turn, an all-success
executor receives the recipe's full 8 invocations, but when the first
invocation (the root frame) fails, the local planner aborts after that
single recorded outcome and returns the root-failure message instead of a
mixed-result summary — so a failed invocation can abort the remaining
sequence, refuting the claim as stated. -/
theorem C8_local_agent_counterexample :
    (runLocalAgent "button" "" "" c8failExec).2.length = 1 ∧
    (runLocalAgent "button" "" "" c8failExec).1 =
      "Local agent could not initialize a root frame in Figma." ∧
    (runLocalAgent "button" "" "" c8okExec).2.length = 8 := by
  refine ⟨by decide, by decide, by decide⟩

/-- Witness for `C8_local_agent_amended` with the mixed executor
`c8mixExec`: the root succeeds, the fourth invocation fails, all 8
invocations still run and the summary reports the 7/1 mix. -/
theorem C8_local_agent_amended_witness :
    extractNodeId (stepValue (c8mixExec 0)) = some "node-1" ∧
    (runLocalAgent "button" "" "" c8mixExec).2.map (fun c => c.error) =
      [errorOf (c8mixExec 0), errorOf (c8mixExec 1), errorOf (c8mixExec 2),
       errorOf (c8mixExec 3), errorOf (c8mixExec 4), errorOf (c8mixExec 5),
       errorOf (c8mixExec 6), errorOf (c8mixExec 7)] ∧
    (runLocalAgent "button" "" "" c8mixExec).1 =
      "Local agent executed 7 action(s) with 1 error(s)." :=
  ⟨by decide, (C8_local_agent_amended c8mixExec "node-1" (by decide)).1, by decide⟩

end CursorCanvas
